import Mathlib

/-!
Verification of the request-validation, identifier-building, upstream-call and
response-normalization pipeline of the graphql-polygon-api repository.

The Python modules are embedded shallowly:
  * decoded JSON values (`dict` contents) become `PyVal`;
  * dictionary subscripting `d[k]`, which raises `KeyError` on a missing key,
    becomes `pyGet` in the `Except` monad;
  * the `requests.get` transport is a function parameter
    `fetch : String → FetchOutcome`; every client function also returns the
    list of endpoint URLs it fetched, so "no HTTP request was attempted" is
    the statement that this list is empty;
  * Python numbers are embedded as rationals (`ℚ`); the source only ever
    manipulates them exactly at the precision the claims mention;
  * `datetime.utcfromtimestamp` becomes `utcfromtimestamp`, computing a civil
    UTC date from an epoch-second count with the standard era decomposition;
  * `strawberry.type` record construction (a generated `__init__` that
    rejects unknown keyword arguments with `TypeError`) becomes `mkPy`,
    which checks the given keyword list against the declared field list.
-/

/-- Python exceptions raised by the pipeline. -/
inductive PErr where
  | valueError (msg : String)
  | requestException (msg : String)
  | exception (msg : String)
  | keyError (key : String)
  | typeError (msg : String)
  | indexError (msg : String)
deriving DecidableEq

/-- The result of `datetime.utcfromtimestamp`: a civil UTC date-time. -/
structure PyDateTime where
  year : Int
  month : Nat
  day : Nat
  hour : Nat
  minute : Nat
  second : Nat
  microsecond : Nat
deriving DecidableEq

/-- Civil date from a count of days since 1970-01-01 (proleptic Gregorian). -/
def civilFromDays (z0 : Int) : Int × Nat × Nat :=
  let z := z0 + 719468
  let era := z.ediv 146097
  let doe := (z.emod 146097).toNat
  let yoe := (doe - doe / 1460 + doe / 36524 - doe / 146096) / 365
  let y := (yoe : Int) + era * 400
  let doy := doe - (365 * yoe + yoe / 4 - yoe / 100)
  let mp := (5 * doy + 2) / 153
  let d := doy - (153 * mp + 2) / 5 + 1
  let m := if mp < 10 then mp + 3 else mp - 9
  (if m ≤ 2 then y + 1 else y, m, d)

/-- The floor of a rational, by floor division of numerator by denominator
(the denominator is positive, so this is the true floor). -/
def ratFloor (q : ℚ) : Int :=
  Int.fdiv q.num (q.den : Int)

/-- `datetime.utcfromtimestamp` on an exact rational second count: the whole
seconds are `⌊ts⌋` and the microseconds are `⌊(ts - ⌊ts⌋) * 1000000⌋`,
computed on the numerator and denominator directly. -/
def utcfromtimestamp (ts : ℚ) : PyDateTime :=
  let total : Int := ratFloor ts
  let micro : Nat := (Int.fdiv ((ts.num - total * (ts.den : Int)) * 1000000) (ts.den : Int)).toNat
  let days : Int := total.ediv 86400
  let sod : Nat := (total.emod 86400).toNat
  let ymd := civilFromDays days
  ⟨ymd.1, ymd.2.1, ymd.2.2, sod / 3600, sod % 3600 / 60, sod % 60, micro⟩

/-- A decoded JSON / Python value. -/
inductive PyVal where
  | s (v : String)
  | q (v : ℚ)
  | b (v : Bool)
  | list (vs : List PyVal)
  | dict (vs : List (String × PyVal))
  | dt (v : PyDateTime)

/-- A decoded JSON object (a Python `dict` with string keys). -/
abbrev PyDict := List (String × PyVal)

/-- A constructed strawberry record: field name to value. -/
abbrev PyObj := List (String × PyVal)

/-- Python `==` against a string literal (false on a non-string value). -/
def PyVal.isStr (v : PyVal) (t : String) : Bool :=
  match v with
  | .s u => u = t
  | _ => false

/-- Python `==` against a numeric literal (false on a non-numeric value). -/
def PyVal.isNum (v : PyVal) (x : ℚ) : Bool :=
  match v with
  | .q y => y = x
  | _ => false

/-- `str(v)` as used in f-string interpolation of upstream status/message
values (the pipeline only ever interpolates strings and numbers). -/
def pyRepr (v : PyVal) : String :=
  match v with
  | .s u => u
  | .q y => if y.den = 1 then toString y.num else toString y
  | .b x => if x then "True" else "False"
  | .list _ => "<list>"
  | .dict _ => "<dict>"
  | .dt _ => "<datetime>"

/-- `str(b)` for a Python bool (f-string interpolation of `adjusted`). -/
def pyBool (x : Bool) : String :=
  if x then "True" else "False"

/-- `d[k]`: the value at `k`, or `KeyError`. -/
def pyGet (d : PyDict) (k : String) : Except PErr PyVal :=
  match d.lookup k with
  | some v => .ok v
  | none => .error (.keyError k)

/-- Iterating a value (`for x in v`): only a list is iterable here. -/
def pyList (v : PyVal) : Except PErr (List PyVal) :=
  match v with
  | .list vs => .ok vs
  | _ => .error (.typeError "object is not iterable")

/-- Subscripting an element as a dict. -/
def pyDictV (v : PyVal) : Except PErr PyDict :=
  match v with
  | .dict d => .ok d
  | _ => .error (.typeError "object is not subscriptable")

/-- Arithmetic use of a value (`v / 1000`): needs a number. -/
def pyNum (v : PyVal) : Except PErr ℚ :=
  match v with
  | .q x => .ok x
  | _ => .error (.typeError "unsupported operand type")

/-- `int(q)` for a rational: truncation toward zero, as in Python. -/
def pyInt (x : ℚ) : Int :=
  Int.tdiv x.num (x.den : Int)

/-- `c in s` for a character: membership among the code points of `s`
(Python strings are code-point sequences). -/
def strContains (s : String) (c : Char) : Bool :=
  s.data.contains c

/-- `s[:n]`: the first `n` code points. -/
def strTake (s : String) (n : Nat) : String :=
  String.mk (s.data.take n)

/-- `s[n:]`: all code points from index `n`. -/
def strDrop (s : String) (n : Nat) : String :=
  String.mk (s.data.drop n)

/-- `s.replace(c, "")` for a one-character pattern: drop every occurrence
of the code point `c`. -/
def removeAll (s : String) (c : Char) : String :=
  String.mk (s.data.filter (fun x => x ≠ c))

/-- `str.zfill`: left-pad with zeros to the requested width. -/
def zfill (width : Nat) (t : String) : String :=
  String.mk (List.replicate (width - t.length) '0') ++ t

/-- The generated `__init__` of a `strawberry.type` record: keyword
arguments must match the declared fields exactly, else `TypeError`. -/
def mkPy (fields : List String) (kwargs : List (String × PyVal)) : Except PErr PyObj :=
  match kwargs.find? (fun kv => !fields.contains kv.1) with
  | some kv => .error (.typeError ("unexpected keyword argument " ++ kv.1))
  | none =>
    match fields.find? (fun f => (kwargs.lookup f).isNone) with
    | some f => .error (.typeError ("missing required argument " ++ f))
    | none => .ok kwargs

/-- The process-wide API key (`polygon_client.KEY`). -/
def KEY : String := "6mK2FCpgpyFWpbGn4O2DiGuSMlcTGc48"

/-- One attempted HTTP fetch: connection failure, a non-JSON body, or a
decoded JSON object. -/
inductive FetchOutcome where
  | connectionFailure
  | badBody
  | json (data : PyDict)

/-- The recognized timespan tokens (`possible_timespans`). -/
def possible_timespans : List String :=
  ["minute", "hour", "day", "week", "month", "quarter", "year"]

/-! ## `polygon_client.crypto` -/

namespace polygon_crypto

/-- Input validation of `crypto.get_aggregates`, first failing check wins. -/
def aggregates_validate (currency_to currency_from : String) (multiplier : Int)
    (timespan : String) (from_ to_ : String) (limit : Int) : Option PErr :=
  if currency_from = "" then some (.valueError "'currency_from' should be non-empty.")
  else if strContains currency_from '/' then some (.valueError "'currency_from' should not include '/'.")
  else if currency_to = "" then some (.valueError "'currency_to' should be non-empty.")
  else if strContains currency_to '/' then some (.valueError "'currency_to' should not include '/'.")
  else if from_ = "" then some (.valueError "'from_' date should be non-empty.")
  else if strContains from_ '/' then some (.valueError "'from_' date should not include '/'.")
  else if !(strContains from_ '-') then some (.valueError "'from_' date should be of format 'YYYY-MM-DD'.")
  else if to_ = "" then some (.valueError "'to' date should be non-empty.")
  else if strContains to_ '/' then some (.valueError "'to' date should not include '/'.")
  else if !(strContains to_ '-') then some (.valueError "'to' date should be of format 'YYYY-MM-DD'.")
  else if multiplier < 1 then some (.valueError "Timespan 'multiplier' should be at least 1.")
  else if !possible_timespans.contains timespan then some (.valueError "'timespan' should be 'minute', 'hour', 'day', 'week', 'month', 'quarter', or 'year'.")
  else if limit < 1 then some (.valueError "'limit' should be at least 1.")
  else if limit > 50000 then some (.valueError "'limit' should be no more than 50000.")
  else none

/-- The `if data["status"] != "OK"` fallthrough shared by the output
validation of every `polygon_client` function, followed for
`get_aggregates` by the `resultsCount == 0` check. -/
def aggregates_status_fall (endpoint ticker from_ to_ : String) (limit : Int)
    (timespan : String) (st : PyVal) (data : PyDict) : Except PErr PyDict :=
  if !st.isStr "OK" then
    match data.lookup "message" with
    | some msg => .error (.exception ("Something went wrong. Unknown " ++ pyRepr st ++ " status received from endpoint (" ++ endpoint ++ "). Received message: " ++ pyRepr msg ++ "."))
    | none =>
      match data.lookup "error" with
      | some err => .error (.exception ("Something went wrong. Unknown " ++ pyRepr st ++ " status received from endpoint (" ++ endpoint ++ "). Received error: " ++ pyRepr err ++ "."))
      | none => .error (.exception ("Something went wrong. Unknown " ++ pyRepr st ++ " status received from endpoint (" ++ endpoint ++ ")."))
  else
    match data.lookup "resultsCount" with
    | none => .error (.keyError "resultsCount")
    | some rc =>
      if rc.isNum 0 then
        .error (.valueError ("Data not found for " ++ ticker ++ " from " ++ from_ ++ " to " ++ to_ ++ " within " ++ toString limit ++ " " ++ timespan ++ " query limit. Perhaps currency pair is incorrect/unavailable, the market was not open in that date range, or 'limit' is too small."))
      else .ok data

/-- Output validation of `crypto.get_aggregates` on the decoded JSON. -/
def aggregates_classify (endpoint ticker from_ to_ : String) (limit : Int)
    (timespan : String) (data : PyDict) : Except PErr PyDict :=
  match data.lookup "status" with
  | none => .error (.keyError "status")
  | some st =>
    if st.isStr "ERROR" then
      match data.lookup "error" with
      | none => .error (.keyError "error")
      | some err =>
        if err.isStr "The parameter 'to' cannot be a time that occurs before 'from'" then
          .error (.valueError "'to' should be a date that occurs after 'from_'.")
        else if err.isStr "Could not parse the time parameter: 'to'. Use YYYY-MM-DD or Unix MS Timestamps" then
          .error (.valueError "'to' should be of format 'YYYY-MM-DD'.")
        else if err.isStr "Could not parse the time parameter: 'from'. Use YYYY-MM-DD or Unix MS Timestamps" then
          .error (.valueError "'from_' should be of format 'YYYY-MM-DD'.")
        else aggregates_status_fall endpoint ticker from_ to_ limit timespan st data
    else aggregates_status_fall endpoint ticker from_ to_ limit timespan st data

/-- The endpoint URL built by `crypto.get_aggregates`. -/
def aggregates_endpoint (ticker : String) (multiplier : Int) (timespan from_ to_ : String)
    (adjusted : Bool) (sort : String) (limit : Int) : String :=
  "https://api.polygon.io/v2/aggs/ticker/" ++ ticker ++ "/range/" ++ toString multiplier ++ "/" ++ timespan ++ "/" ++ from_ ++ "/" ++ to_ ++ "?adjusted=" ++ pyBool adjusted ++ "&sort=" ++ sort ++ "&limit=" ++ toString limit ++ "&apiKey=" ++ KEY

/-- `polygon_client.crypto.get_aggregates`: validate, build the `X:` currency
pair ticker, fetch, decode, classify.  Also returns the fetched URLs. -/
def get_aggregates (fetch : String → FetchOutcome) (currency_to currency_from : String)
    (multiplier : Int) (timespan : String) (from_ to_ : String)
    (adjusted ascending : Bool) (limit : Int) : Except PErr PyDict × List String :=
  match aggregates_validate currency_to currency_from multiplier timespan from_ to_ limit with
  | some e => (.error e, [])
  | none =>
    let ticker := "X:" ++ currency_to ++ currency_from
    let sort := if ascending then "asc" else "desc"
    let endpoint := aggregates_endpoint ticker multiplier timespan from_ to_ adjusted sort limit
    match fetch endpoint with
    | .connectionFailure => (.error (.requestException ("Error connecting to endpoint (" ++ endpoint ++ ").")), [endpoint])
    | .badBody => (.error (.requestException ("Unexpected non-JSON response from endpoint (" ++ endpoint ++ ").")), [endpoint])
    | .json data => (aggregates_classify endpoint ticker from_ to_ limit timespan data, [endpoint])

/-- Input validation of `crypto.get_daily_open_close`. -/
def daily_open_close_validate (currency_to currency_from date : String) : Option PErr :=
  if currency_from = "" then some (.valueError "'currency_from' should be non-empty.")
  else if strContains currency_from '/' then some (.valueError "'currency_from' should not include '/'.")
  else if currency_to = "" then some (.valueError "'currency_to' should be non-empty.")
  else if strContains currency_to '/' then some (.valueError "'currency_to' should not include '/'.")
  else if date = "" then some (.valueError "'date' should be non-empty.")
  else if strContains date '/' then some (.valueError "'date' should not include '/'.")
  else if !(strContains date '-') then some (.valueError "'date' should be of format 'YYYY-MM-DD'.")
  else none

/-- The `status != "OK"` fallthrough of `crypto.get_daily_open_close` (no
result-count concept on this endpoint). -/
def daily_open_close_status_fall (endpoint : String) (st : PyVal) (data : PyDict) :
    Except PErr PyDict :=
  if !st.isStr "OK" then
    match data.lookup "message" with
    | some msg => .error (.exception ("Something went wrong. Unknown " ++ pyRepr st ++ " status received from endpoint (" ++ endpoint ++ "). Received message: " ++ pyRepr msg ++ "."))
    | none =>
      match data.lookup "error" with
      | some err => .error (.exception ("Something went wrong. Unknown " ++ pyRepr st ++ " status received from endpoint (" ++ endpoint ++ "). Received error: " ++ pyRepr err ++ "."))
      | none => .error (.exception ("Something went wrong. Unknown " ++ pyRepr st ++ " status received from endpoint (" ++ endpoint ++ ")."))
  else .ok data

/-- Output validation of `crypto.get_daily_open_close` (guarded by
`if "status" in data`). -/
def daily_open_close_classify (endpoint ticker date : String) (data : PyDict) :
    Except PErr PyDict :=
  match data.lookup "status" with
  | none => .ok data
  | some st =>
    if st.isStr "ERROR" then
      match data.lookup "error" with
      | none => .error (.keyError "error")
      | some err =>
        if err.isStr "today's Date not supported yet" then
          .error (.valueError "'date' is not supported yet. Perhaps 'date' is in the future.")
        else if err.isStr "could not parse from Date. use YYYY-MM-DD timestamps" then
          .error (.valueError "'date' should be of format 'YYYY-MM-DD'.")
        else if err.isStr "Ticker was incorrectly formatted" then
          .error (.valueError "'ticker' was incorrectly formatted.")
        else if err.isStr "You've exceeded the maximum requests per minute, please wait or upgrade your subscription to continue." then
          .error (.requestException "Maximum requests per minute has been exceeded. Perhaps use a premium API key.")
        else daily_open_close_status_fall endpoint st data
    else if st.isStr "NOT_FOUND" then
      match data.lookup "message" with
      | none => .error (.keyError "message")
      | some msg =>
        if msg.isStr "Data not found." then
          .error (.valueError ("Data not found for " ++ ticker ++ " on " ++ date ++ ". Perhaps currency pair is incorrect/unavailable or the market was not open on 'date'."))
        else daily_open_close_status_fall endpoint st data
    else daily_open_close_status_fall endpoint st data

/-- The endpoint URL built by `crypto.get_daily_open_close`. -/
def daily_open_close_endpoint (currency_to currency_from date : String) (adjusted : Bool) : String :=
  "https://api.polygon.io/v1/open-close/crypto/" ++ currency_to ++ "/" ++ currency_from ++ "/" ++ date ++ "?adjusted=" ++ pyBool adjusted ++ "&apiKey=" ++ KEY

/-- `polygon_client.crypto.get_daily_open_close`. -/
def get_daily_open_close (fetch : String → FetchOutcome)
    (currency_to currency_from date : String) (adjusted : Bool) :
    Except PErr PyDict × List String :=
  match daily_open_close_validate currency_to currency_from date with
  | some e => (.error e, [])
  | none =>
    let ticker := "X:" ++ currency_to ++ currency_from
    let endpoint := daily_open_close_endpoint currency_to currency_from date adjusted
    match fetch endpoint with
    | .connectionFailure => (.error (.requestException ("Error connecting to endpoint (" ++ endpoint ++ ").")), [endpoint])
    | .badBody => (.error (.requestException ("Unexpected non-JSON response from endpoint (" ++ endpoint ++ ").")), [endpoint])
    | .json data => (daily_open_close_classify endpoint ticker date data, [endpoint])

/-- Input validation of `crypto.get_grouped_daily`. -/
def grouped_daily_validate (date : String) : Option PErr :=
  if date = "" then some (.valueError "'date' should be non-empty.")
  else if strContains date '/' then some (.valueError "'date' should not include '/'.")
  else if !(strContains date '-') then some (.valueError "'date' should be of format 'YYYY-MM-DD'.")
  else none

/-- The `status != "OK"` fallthrough of `crypto.get_grouped_daily`: note
that a payload with status `"OK"` is returned with no result-count check. -/
def grouped_daily_status_fall (endpoint : String) (st : PyVal) (data : PyDict) :
    Except PErr PyDict :=
  if !st.isStr "OK" then
    match data.lookup "message" with
    | some msg => .error (.exception ("Something went wrong. Unknown " ++ pyRepr st ++ " status received from endpoint (" ++ endpoint ++ "). Received message: " ++ pyRepr msg ++ "."))
    | none =>
      match data.lookup "error" with
      | some err => .error (.exception ("Something went wrong. Unknown " ++ pyRepr st ++ " status received from endpoint (" ++ endpoint ++ "). Received error: " ++ pyRepr err ++ "."))
      | none => .error (.exception ("Something went wrong. Unknown " ++ pyRepr st ++ " status received from endpoint (" ++ endpoint ++ ")."))
  else .ok data

/-- Output validation of `crypto.get_grouped_daily`. -/
def grouped_daily_classify (endpoint date : String) (data : PyDict) : Except PErr PyDict :=
  match data.lookup "status" with
  | none => .error (.keyError "status")
  | some st =>
    if st.isStr "ERROR" then
      match data.lookup "error" with
      | none => .error (.keyError "error")
      | some err =>
        if err.isStr ("The path parameter `date` with value " ++ date ++ " is invalid, must be of the format YYYY-MM-DD.") then
          .error (.valueError "'date' should be of format 'YYYY-MM-DD'.")
        else if err.isStr "You've exceeded the maximum requests per minute, please wait or upgrade your subscription to continue." then
          .error (.requestException "Maximum requests per minute has been exceeded. Perhaps use a premium API key.")
        else grouped_daily_status_fall endpoint st data
    else if st.isStr "DELAYED" then
      .error (.valueError "'date' is not supported yet. Perhaps 'date' is in the future.")
    else if st.isStr "NOT_AUTHORIZED" then
      match data.lookup "message" with
      | none => .error (.keyError "message")
      | some msg =>
        if msg.isStr "Attempted to request data past historical entitlements. Please upgrade your plan at https://polygon.io/pricing" then
          .error (.requestException "Unable to request data past historical entitlements. Perhaps use a premium API key.")
        else grouped_daily_status_fall endpoint st data
    else grouped_daily_status_fall endpoint st data

/-- The endpoint URL built by `crypto.get_grouped_daily`. -/
def grouped_daily_endpoint (date : String) (adjusted : Bool) : String :=
  "https://api.polygon.io/v2/aggs/grouped/locale/global/market/crypto/" ++ date ++ "?adjusted=" ++ pyBool adjusted ++ "&apiKey=" ++ KEY

/-- `polygon_client.crypto.get_grouped_daily`. -/
def get_grouped_daily (fetch : String → FetchOutcome) (date : String) (adjusted : Bool) :
    Except PErr PyDict × List String :=
  match grouped_daily_validate date with
  | some e => (.error e, [])
  | none =>
    let endpoint := grouped_daily_endpoint date adjusted
    match fetch endpoint with
    | .connectionFailure => (.error (.requestException ("Error connecting to endpoint (" ++ endpoint ++ ").")), [endpoint])
    | .badBody => (.error (.requestException ("Unexpected non-JSON response from endpoint (" ++ endpoint ++ ").")), [endpoint])
    | .json data => (grouped_daily_classify endpoint date data, [endpoint])

/-- Input validation of `crypto.get_previous_close`. -/
def previous_close_validate (currency_to currency_from : String) : Option PErr :=
  if currency_from = "" then some (.valueError "'currency_from' should be non-empty.")
  else if strContains currency_from '/' then some (.valueError "'currency_from' should not include '/'.")
  else if currency_to = "" then some (.valueError "'currency_to' should be non-empty.")
  else if strContains currency_to '/' then some (.valueError "'currency_to' should not include '/'.")
  else none

/-- The `status != "OK"` fallthrough of `crypto.get_previous_close`,
followed by its `resultsCount == 0` check. -/
def previous_close_status_fall (endpoint ticker : String) (st : PyVal) (data : PyDict) :
    Except PErr PyDict :=
  if !st.isStr "OK" then
    match data.lookup "message" with
    | some msg => .error (.exception ("Something went wrong. Unknown " ++ pyRepr st ++ " status received from endpoint (" ++ endpoint ++ "). Received message: " ++ pyRepr msg ++ "."))
    | none =>
      match data.lookup "error" with
      | some err => .error (.exception ("Something went wrong. Unknown " ++ pyRepr st ++ " status received from endpoint (" ++ endpoint ++ "). Received error: " ++ pyRepr err ++ "."))
      | none => .error (.exception ("Something went wrong. Unknown " ++ pyRepr st ++ " status received from endpoint (" ++ endpoint ++ ")."))
  else
    match data.lookup "resultsCount" with
    | none => .error (.keyError "resultsCount")
    | some rc =>
      if rc.isNum 0 then
        .error (.valueError ("Data not found for " ++ ticker ++ ". Perhaps currency pair is incorrect/unavailable."))
      else .ok data

/-- Output validation of `crypto.get_previous_close`. -/
def previous_close_classify (endpoint ticker : String) (data : PyDict) : Except PErr PyDict :=
  match data.lookup "status" with
  | none => .error (.keyError "status")
  | some st =>
    if st.isStr "ERROR" then
      match data.lookup "error" with
      | none => .error (.keyError "error")
      | some err =>
        if err.isStr "Ticker was incorrectly formatted" then
          .error (.valueError "'ticker' was incorrectly formatted.")
        else previous_close_status_fall endpoint ticker st data
    else previous_close_status_fall endpoint ticker st data

/-- The endpoint URL built by `crypto.get_previous_close`. -/
def previous_close_endpoint (ticker : String) (adjusted : Bool) : String :=
  "https://api.polygon.io/v2/aggs/ticker/" ++ ticker ++ "/prev?adjusted=" ++ pyBool adjusted ++ "&apiKey=" ++ KEY

/-- `polygon_client.crypto.get_previous_close`. -/
def get_previous_close (fetch : String → FetchOutcome) (currency_to currency_from : String)
    (adjusted : Bool) : Except PErr PyDict × List String :=
  match previous_close_validate currency_to currency_from with
  | some e => (.error e, [])
  | none =>
    let ticker := "X:" ++ currency_to ++ currency_from
    let endpoint := previous_close_endpoint ticker adjusted
    match fetch endpoint with
    | .connectionFailure => (.error (.requestException ("Error connecting to endpoint (" ++ endpoint ++ ").")), [endpoint])
    | .badBody => (.error (.requestException ("Unexpected non-JSON response from endpoint (" ++ endpoint ++ ").")), [endpoint])
    | .json data => (previous_close_classify endpoint ticker data, [endpoint])

end polygon_crypto

/-! ## `polygon_client.options` -/

namespace polygon_options

/-- Input validation of `options.get_aggregates`, first failing check wins. -/
def aggregates_validate (ticker expiration : String) (strike : ℚ)
    (multiplier : Int) (timespan : String) (from_ to_ : String) (limit : Int) : Option PErr :=
  if ticker = "" then some (.valueError "'ticker' should be non-empty.")
  else if strContains ticker '/' then some (.valueError "'ticker' should not include '/'.")
  else if expiration = "" then some (.valueError "'expiration' date should be non-empty.")
  else if strContains expiration '/' then some (.valueError "'expiration' date should not include '/'.")
  else if !(strContains expiration '-') then some (.valueError "'expiration' date should be of format 'YYYY-MM-DD'.")
  else if strTake expiration 2 ≠ "20" then some (.valueError "'expiration' date should be in the 21st century.")
  else if strike < 0 then some (.valueError "'strike' price should be greater than $0.")
  else if strike > mkRat 99999999 1000 then some (.valueError "'strike' price should be less than $99999.999.")
  else if from_ = "" then some (.valueError "'from_' date should be non-empty.")
  else if strContains from_ '/' then some (.valueError "'from_' date should not include '/'.")
  else if !(strContains from_ '-') then some (.valueError "'from_' date should be of format 'YYYY-MM-DD'.")
  else if to_ = "" then some (.valueError "'to' date should be non-empty.")
  else if strContains to_ '/' then some (.valueError "'to' date should not include '/'.")
  else if !(strContains to_ '-') then some (.valueError "'to' date should be of format 'YYYY-MM-DD'.")
  else if multiplier < 1 then some (.valueError "Timespan 'multiplier' should be at least 1.")
  else if !possible_timespans.contains timespan then some (.valueError "'timespan' should be 'minute', 'hour', 'day', 'week', 'month', 'quarter', or 'year'.")
  else if limit < 1 then some (.valueError "'limit' should be at least 1.")
  else if limit > 50000 then some (.valueError "'limit' should be no more than 50000.")
  else none

/-- The "input morphing" block of `options.get_aggregates`: strip the first
two characters and the dashes from `expiration`, format `int(strike * 1000)`
zero-filled to width 8, and assemble the `O:` identifier. -/
def aggregates_morph (ticker expiration : String) (call : Bool) (strike : ℚ) : String :=
  let expiration2 := removeAll (strDrop expiration 2) '-'
  let strike2 := zfill 8 (toString (pyInt (strike * 1000)))
  if call then "O:" ++ ticker ++ expiration2 ++ "C" ++ strike2
  else "O:" ++ ticker ++ expiration2 ++ "P" ++ strike2

/-- The `status != "OK"` fallthrough of `options.get_aggregates`,
followed by its `resultsCount == 0` check. -/
def aggregates_status_fall (endpoint ticker from_ to_ : String) (limit : Int)
    (timespan : String) (st : PyVal) (data : PyDict) : Except PErr PyDict :=
  if !st.isStr "OK" then
    match data.lookup "message" with
    | some msg => .error (.exception ("Something went wrong. Unknown " ++ pyRepr st ++ " status received from endpoint (" ++ endpoint ++ "). Received message: " ++ pyRepr msg ++ "."))
    | none =>
      match data.lookup "error" with
      | some err => .error (.exception ("Something went wrong. Unknown " ++ pyRepr st ++ " status received from endpoint (" ++ endpoint ++ "). Received error: " ++ pyRepr err ++ "."))
      | none => .error (.exception ("Something went wrong. Unknown " ++ pyRepr st ++ " status received from endpoint (" ++ endpoint ++ ")."))
  else
    match data.lookup "resultsCount" with
    | none => .error (.keyError "resultsCount")
    | some rc =>
      if rc.isNum 0 then
        .error (.valueError ("Data not found for " ++ ticker ++ " from " ++ from_ ++ " to " ++ to_ ++ " within " ++ toString limit ++ " " ++ timespan ++ " query limit. Perhaps specified option is incorrect, the market was not open in that date range, or 'limit' is too small."))
      else .ok data

/-- Output validation of `options.get_aggregates` on the decoded JSON. -/
def aggregates_classify (endpoint ticker from_ to_ : String) (limit : Int)
    (timespan : String) (data : PyDict) : Except PErr PyDict :=
  match data.lookup "status" with
  | none => .error (.keyError "status")
  | some st =>
    if st.isStr "ERROR" then
      match data.lookup "error" with
      | none => .error (.keyError "error")
      | some err =>
        if err.isStr "The parameter 'to' cannot be a time that occurs before 'from'" then
          .error (.valueError "'to' should be a date that occurs after 'from_'.")
        else if err.isStr "Could not parse the time parameter: 'to'. Use YYYY-MM-DD or Unix MS Timestamps" then
          .error (.valueError "'to' should be of format 'YYYY-MM-DD'.")
        else if err.isStr "Could not parse the time parameter: 'from'. Use YYYY-MM-DD or Unix MS Timestamps" then
          .error (.valueError "'from_' should be of format 'YYYY-MM-DD'.")
        else aggregates_status_fall endpoint ticker from_ to_ limit timespan st data
    else aggregates_status_fall endpoint ticker from_ to_ limit timespan st data

/-- The endpoint URL built by `options.get_aggregates`. -/
def aggregates_endpoint (ticker2 : String) (multiplier : Int) (timespan from_ to_ : String)
    (adjusted : Bool) (sort : String) (limit : Int) : String :=
  "https://api.polygon.io/v2/aggs/ticker/" ++ ticker2 ++ "/range/" ++ toString multiplier ++ "/" ++ timespan ++ "/" ++ from_ ++ "/" ++ to_ ++ "?adjusted=" ++ pyBool adjusted ++ "&sort=" ++ sort ++ "&limit=" ++ toString limit ++ "&apiKey=" ++ KEY

/-- `polygon_client.options.get_aggregates`. -/
def get_aggregates (fetch : String → FetchOutcome) (ticker expiration : String)
    (call : Bool) (strike : ℚ) (multiplier : Int) (timespan : String) (from_ to_ : String)
    (adjusted ascending : Bool) (limit : Int) : Except PErr PyDict × List String :=
  match aggregates_validate ticker expiration strike multiplier timespan from_ to_ limit with
  | some e => (.error e, [])
  | none =>
    let ticker2 := aggregates_morph ticker expiration call strike
    let sort := if ascending then "asc" else "desc"
    let endpoint := aggregates_endpoint ticker2 multiplier timespan from_ to_ adjusted sort limit
    match fetch endpoint with
    | .connectionFailure => (.error (.requestException ("Error connecting to endpoint (" ++ endpoint ++ ").")), [endpoint])
    | .badBody => (.error (.requestException ("Unexpected non-JSON response from endpoint (" ++ endpoint ++ ").")), [endpoint])
    | .json data => (aggregates_classify endpoint ticker2 from_ to_ limit timespan data, [endpoint])

/-- Input validation of `options.get_daily_open_close`. -/
def daily_open_close_validate (ticker expiration : String) (strike : ℚ)
    (date : String) : Option PErr :=
  if ticker = "" then some (.valueError "'ticker' should be non-empty.")
  else if strContains ticker '/' then some (.valueError "'ticker' should not include '/'.")
  else if expiration = "" then some (.valueError "'expiration' date should be non-empty.")
  else if strContains expiration '/' then some (.valueError "'expiration' date should not include '/'.")
  else if !(strContains expiration '-') then some (.valueError "'expiration' date should be of format 'YYYY-MM-DD'.")
  else if strTake expiration 2 ≠ "20" then some (.valueError "'expiration' date should be in the 21st century.")
  else if strike < 0 then some (.valueError "'strike' price should be greater than $0.")
  else if strike > mkRat 99999999 1000 then some (.valueError "'strike' price should be less than $99999.999.")
  else if date = "" then some (.valueError "'date' should be non-empty.")
  else if strContains date '/' then some (.valueError "'date' should not include '/'.")
  else if !(strContains date '-') then some (.valueError "'date' should be of format 'YYYY-MM-DD'.")
  else none

/-- The "input morphing" block of `options.get_daily_open_close`
(textually identical to the one in `get_aggregates`). -/
def daily_open_close_morph (ticker expiration : String) (call : Bool) (strike : ℚ) : String :=
  let expiration2 := removeAll (strDrop expiration 2) '-'
  let strike2 := zfill 8 (toString (pyInt (strike * 1000)))
  if call then "O:" ++ ticker ++ expiration2 ++ "C" ++ strike2
  else "O:" ++ ticker ++ expiration2 ++ "P" ++ strike2

/-- The `status != "OK"` fallthrough of `options.get_daily_open_close`. -/
def daily_open_close_status_fall (endpoint : String) (st : PyVal) (data : PyDict) :
    Except PErr PyDict :=
  if !st.isStr "OK" then
    match data.lookup "message" with
    | some msg => .error (.exception ("Something went wrong. Unknown " ++ pyRepr st ++ " status received from endpoint (" ++ endpoint ++ "). Received message: " ++ pyRepr msg ++ "."))
    | none =>
      match data.lookup "error" with
      | some err => .error (.exception ("Something went wrong. Unknown " ++ pyRepr st ++ " status received from endpoint (" ++ endpoint ++ "). Received error: " ++ pyRepr err ++ "."))
      | none => .error (.exception ("Something went wrong. Unknown " ++ pyRepr st ++ " status received from endpoint (" ++ endpoint ++ ")."))
  else .ok data

/-- Output validation of `options.get_daily_open_close` (unlike the crypto
variant, not guarded by an `if "status" in data` check). -/
def daily_open_close_classify (endpoint ticker date : String) (data : PyDict) :
    Except PErr PyDict :=
  match data.lookup "status" with
  | none => .error (.keyError "status")
  | some st =>
    if st.isStr "ERROR" then
      match data.lookup "error" with
      | none => .error (.keyError "error")
      | some err =>
        if err.isStr "today's Date not supported yet" then
          .error (.valueError "'date' is not supported yet. Perhaps 'date' is in the future.")
        else if err.isStr "could not parse from Date. use YYYY-MM-DD timestamps" then
          .error (.valueError "'date' should be of format 'YYYY-MM-DD'.")
        else if err.isStr "Ticker was incorrectly formatted" then
          .error (.valueError "'ticker' was incorrectly formatted.")
        else if err.isStr "You've exceeded the maximum requests per minute, please wait or upgrade your subscription to continue." then
          .error (.requestException "Maximum requests per minute has been exceeded. Perhaps use a premium API key.")
        else daily_open_close_status_fall endpoint st data
    else if st.isStr "NOT_FOUND" then
      match data.lookup "message" with
      | none => .error (.keyError "message")
      | some msg =>
        if msg.isStr "Data not found." then
          .error (.valueError ("Data not found for " ++ ticker ++ " on " ++ date ++ ". Perhaps 'ticker' is incorrect or the market was not open on 'date'."))
        else daily_open_close_status_fall endpoint st data
    else daily_open_close_status_fall endpoint st data

/-- The endpoint URL built by `options.get_daily_open_close`. -/
def daily_open_close_endpoint (ticker2 date : String) (adjusted : Bool) : String :=
  "https://api.polygon.io/v1/open-close/" ++ ticker2 ++ "/" ++ date ++ "?adjusted=" ++ pyBool adjusted ++ "&apiKey=" ++ KEY

/-- `polygon_client.options.get_daily_open_close`. -/
def get_daily_open_close (fetch : String → FetchOutcome) (ticker expiration : String)
    (call : Bool) (strike : ℚ) (date : String) (adjusted : Bool) :
    Except PErr PyDict × List String :=
  match daily_open_close_validate ticker expiration strike date with
  | some e => (.error e, [])
  | none =>
    let ticker2 := daily_open_close_morph ticker expiration call strike
    let endpoint := daily_open_close_endpoint ticker2 date adjusted
    match fetch endpoint with
    | .connectionFailure => (.error (.requestException ("Error connecting to endpoint (" ++ endpoint ++ ").")), [endpoint])
    | .badBody => (.error (.requestException ("Unexpected non-JSON response from endpoint (" ++ endpoint ++ ").")), [endpoint])
    | .json data => (daily_open_close_classify endpoint ticker2 date data, [endpoint])

/-- Input validation of `options.get_previous_close`. -/
def previous_close_validate (ticker expiration : String) (strike : ℚ) : Option PErr :=
  if ticker = "" then some (.valueError "'ticker' should be non-empty.")
  else if strContains ticker '/' then some (.valueError "'ticker' should not include '/'.")
  else if expiration = "" then some (.valueError "'expiration' date should be non-empty.")
  else if strContains expiration '/' then some (.valueError "'expiration' date should not include '/'.")
  else if !(strContains expiration '-') then some (.valueError "'expiration' date should be of format 'YYYY-MM-DD'.")
  else if strTake expiration 2 ≠ "20" then some (.valueError "'expiration' date should be in the 21st century.")
  else if strike < 0 then some (.valueError "'strike' price should be greater than $0.")
  else if strike > mkRat 99999999 1000 then some (.valueError "'strike' price should be less than $99999.999.")
  else none

/-- The "input morphing" block of `options.get_previous_close`
(textually identical to the one in `get_aggregates`). -/
def previous_close_morph (ticker expiration : String) (call : Bool) (strike : ℚ) : String :=
  let expiration2 := removeAll (strDrop expiration 2) '-'
  let strike2 := zfill 8 (toString (pyInt (strike * 1000)))
  if call then "O:" ++ ticker ++ expiration2 ++ "C" ++ strike2
  else "O:" ++ ticker ++ expiration2 ++ "P" ++ strike2

/-- The `status != "OK"` fallthrough of `options.get_previous_close`,
followed by its `resultsCount == 0` check. -/
def previous_close_status_fall (endpoint ticker : String) (st : PyVal) (data : PyDict) :
    Except PErr PyDict :=
  if !st.isStr "OK" then
    match data.lookup "message" with
    | some msg => .error (.exception ("Something went wrong. Unknown " ++ pyRepr st ++ " status received from endpoint (" ++ endpoint ++ "). Received message: " ++ pyRepr msg ++ "."))
    | none =>
      match data.lookup "error" with
      | some err => .error (.exception ("Something went wrong. Unknown " ++ pyRepr st ++ " status received from endpoint (" ++ endpoint ++ "). Received error: " ++ pyRepr err ++ "."))
      | none => .error (.exception ("Something went wrong. Unknown " ++ pyRepr st ++ " status received from endpoint (" ++ endpoint ++ ")."))
  else
    match data.lookup "resultsCount" with
    | none => .error (.keyError "resultsCount")
    | some rc =>
      if rc.isNum 0 then
        .error (.valueError ("Data not found for " ++ ticker ++ ". Perhaps 'ticker' is incorrect."))
      else .ok data

/-- Output validation of `options.get_previous_close`. -/
def previous_close_classify (endpoint ticker : String) (data : PyDict) : Except PErr PyDict :=
  match data.lookup "status" with
  | none => .error (.keyError "status")
  | some st =>
    if st.isStr "ERROR" then
      match data.lookup "error" with
      | none => .error (.keyError "error")
      | some err =>
        if err.isStr "Ticker was incorrectly formatted" then
          .error (.valueError "'ticker' was incorrectly formatted.")
        else previous_close_status_fall endpoint ticker st data
    else previous_close_status_fall endpoint ticker st data

/-- The endpoint URL built by `options.get_previous_close`. -/
def previous_close_endpoint (ticker2 : String) (adjusted : Bool) : String :=
  "https://api.polygon.io/v2/aggs/ticker/" ++ ticker2 ++ "/prev?adjusted=" ++ pyBool adjusted ++ "&apiKey=" ++ KEY

/-- `polygon_client.options.get_previous_close`. -/
def get_previous_close (fetch : String → FetchOutcome) (ticker expiration : String)
    (call : Bool) (strike : ℚ) (adjusted : Bool) : Except PErr PyDict × List String :=
  match previous_close_validate ticker expiration strike with
  | some e => (.error e, [])
  | none =>
    let ticker2 := previous_close_morph ticker expiration call strike
    let endpoint := previous_close_endpoint ticker2 adjusted
    match fetch endpoint with
    | .connectionFailure => (.error (.requestException ("Error connecting to endpoint (" ++ endpoint ++ ").")), [endpoint])
    | .badBody => (.error (.requestException ("Unexpected non-JSON response from endpoint (" ++ endpoint ++ ").")), [endpoint])
    | .json data => (previous_close_classify endpoint ticker2 data, [endpoint])

end polygon_options

/-! ## `graphql_wrapper.structs` -/

namespace structs

/-- `structs.Timespan` enumeration and its upstream token. -/
inductive Timespan where
  | MINUTE | HOUR | DAY | WEEK | MONTH | QUARTER | YEAR
deriving DecidableEq

def Timespan.value : Timespan → String
  | .MINUTE => "minute"
  | .HOUR => "hour"
  | .DAY => "day"
  | .WEEK => "week"
  | .MONTH => "month"
  | .QUARTER => "quarter"
  | .YEAR => "year"

/-- `structs.Sort` enumeration (the name `Sort` is reserved in Lean) and its
boolean ascending flag. -/
inductive SortOrder where
  | ASCENDING | DESCENDING
deriving DecidableEq

def SortOrder.value : SortOrder → Bool
  | .ASCENDING => true
  | .DESCENDING => false

/-- The declared fields of `structs.AggregatesBar`. -/
def AggregatesBar_fields : List String :=
  ["close", "high", "low", "transactions", "open", "time", "volume", "vw_price"]

/-- The declared fields of `structs.GroupedDailyBar`. -/
def GroupedDailyBar_fields : List String :=
  ["ticker", "close", "high", "low", "transactions", "open", "time", "volume", "vw_price"]

/-- The declared fields of `structs.PreviousClose` (note: no `ticker`). -/
def PreviousClose_fields : List String :=
  ["close", "high", "low", "transactions", "open", "time", "volume", "vw_price"]

end structs

/-- Subscripting/slicing a value as a string (`result["T"][:2]` requires the
value to be a string; slicing a number raises `TypeError`). -/
def pyStr (v : PyVal) : Except PErr String :=
  match v with
  | .s u => .ok u
  | _ => .error (.typeError "object is not subscriptable")

/-- `results[0]`. -/
def pyFirst (vs : List PyVal) : Except PErr PyVal :=
  match vs with
  | [] => .error (.indexError "list index out of range")
  | v :: _ => .ok v

/-! ## `graphql_wrapper.crypto` (class `Crypto`) -/

namespace gql_crypto

/-- One loop iteration of `Crypto.aggregates`: build a `structs.AggregatesBar`
from one upstream result object, in the keyword order of the source. -/
def aggregates_bar (result : PyDict) : Except PErr PyObj := do
  let c ← pyGet result "c"
  let h ← pyGet result "h"
  let l ← pyGet result "l"
  let n := match result.lookup "n" with
    | some v => v
    | none => .q (-1)
  let o ← pyGet result "o"
  let tv ← pyGet result "t"
  let t ← pyNum tv
  let v ← pyGet result "v"
  let vw := match result.lookup "vw" with
    | some w => w
    | none => .q (-1)
  mkPy structs.AggregatesBar_fields
    [("close", c), ("high", h), ("low", l), ("transactions", n), ("open", o),
     ("time", .dt (utcfromtimestamp (t / 1000))), ("volume", v), ("vw_price", vw)]

/-- The result loop of `Crypto.aggregates` over `data["results"]`. -/
def aggregates_market (data : PyDict) : Except PErr (List PyObj) := do
  let rsv ← pyGet data "results"
  let rs ← pyList rsv
  rs.mapM (fun rv => do
    let r ← pyDictV rv
    aggregates_bar r)

/-- `Crypto.aggregates`: note that the source passes `currency_from` as the
client's first positional argument and `currency_to` as its second, while
`polygon_client.crypto.get_aggregates` declares them in the order
`(currency_to, currency_from)`. -/
def aggregates (fetch : String → FetchOutcome) (currency_to currency_from : String)
    (timespan : structs.Timespan) (from_ to_ : String) (multiplier : Int)
    (adjusted : Bool) (sort : structs.SortOrder) (limit : Int) :
    Except PErr (List PyObj) × List String :=
  let r := polygon_crypto.get_aggregates fetch currency_from currency_to multiplier
    timespan.value from_ to_ adjusted sort.value limit
  (r.1.bind aggregates_market, r.2)

/-- One loop iteration of `Crypto.grouped_daily`: the upstream ticker is
stripped of a leading `"X:"` before the record is built. -/
def grouped_daily_bar (result : PyDict) : Except PErr PyObj := do
  let Tv ← pyGet result "T"
  let T ← pyStr Tv
  let tick := if strTake T 2 = "X:" then strDrop T 2 else T
  let c ← pyGet result "c"
  let h ← pyGet result "h"
  let l ← pyGet result "l"
  let n := match result.lookup "n" with
    | some v => v
    | none => .q (-1)
  let o ← pyGet result "o"
  let tv ← pyGet result "t"
  let t ← pyNum tv
  let v ← pyGet result "v"
  let vw := match result.lookup "vw" with
    | some w => w
    | none => .q (-1)
  mkPy structs.GroupedDailyBar_fields
    [("ticker", .s tick), ("close", c), ("high", h), ("low", l), ("transactions", n),
     ("open", o), ("time", .dt (utcfromtimestamp (t / 1000))), ("volume", v), ("vw_price", vw)]

/-- The result loop of `Crypto.grouped_daily`. -/
def grouped_daily_market (data : PyDict) : Except PErr (List PyObj) := do
  let rsv ← pyGet data "results"
  let rs ← pyList rsv
  rs.mapM (fun rv => do
    let r ← pyDictV rv
    grouped_daily_bar r)

/-- `Crypto.grouped_daily`. -/
def grouped_daily (fetch : String → FetchOutcome) (date : String) (adjusted : Bool) :
    Except PErr (List PyObj) × List String :=
  let r := polygon_crypto.get_grouped_daily fetch date adjusted
  (r.1.bind grouped_daily_market, r.2)

/-- The record construction of `Crypto.previous_close` on a successful
decoded payload: `results[0]` is projected into `structs.PreviousClose`, the
keyword list starting with `ticker=result["T"]`. -/
def previous_close_result (data : PyDict) : Except PErr PyObj := do
  let rsv ← pyGet data "results"
  let rs ← pyList rsv
  let r0 ← pyFirst rs
  let result ← pyDictV r0
  let T ← pyGet result "T"
  let c ← pyGet result "c"
  let h ← pyGet result "h"
  let l ← pyGet result "l"
  let n := match result.lookup "n" with
    | some v => v
    | none => .q (-1)
  let o ← pyGet result "o"
  let tv ← pyGet result "t"
  let t ← pyNum tv
  let v ← pyGet result "v"
  let vw := match result.lookup "vw" with
    | some w => w
    | none => .q (-1)
  mkPy structs.PreviousClose_fields
    [("ticker", T), ("close", c), ("high", h), ("low", l), ("transactions", n),
     ("open", o), ("time", .dt (utcfromtimestamp (t / 1000))), ("volume", v), ("vw_price", vw)]

/-- `Crypto.previous_close`. -/
def previous_close (fetch : String → FetchOutcome) (currency_to currency_from : String)
    (adjusted : Bool) : Except PErr PyObj × List String :=
  let r := polygon_crypto.get_previous_close fetch currency_to currency_from adjusted
  (r.1.bind previous_close_result, r.2)

end gql_crypto

/-! ## `graphql_wrapper.forex` (class `Forex`) — the normalization steps;
the `polygon_client.forex` module itself is not among the staged sources. -/

namespace gql_forex

/-- One loop iteration of `Forex.grouped_daily`: the upstream ticker is
stripped of a leading `"C:"` before the record is built. -/
def grouped_daily_bar (result : PyDict) : Except PErr PyObj := do
  let Tv ← pyGet result "T"
  let T ← pyStr Tv
  let tick := if strTake T 2 = "C:" then strDrop T 2 else T
  let c ← pyGet result "c"
  let h ← pyGet result "h"
  let l ← pyGet result "l"
  let n := match result.lookup "n" with
    | some v => v
    | none => .q (-1)
  let o ← pyGet result "o"
  let tv ← pyGet result "t"
  let t ← pyNum tv
  let v ← pyGet result "v"
  let vw := match result.lookup "vw" with
    | some w => w
    | none => .q (-1)
  mkPy structs.GroupedDailyBar_fields
    [("ticker", .s tick), ("close", c), ("high", h), ("low", l), ("transactions", n),
     ("open", o), ("time", .dt (utcfromtimestamp (t / 1000))), ("volume", v), ("vw_price", vw)]

/-- The record construction of `Forex.previous_close` on a successful decoded
payload: no `ticker` keyword is passed. -/
def previous_close_result (data : PyDict) : Except PErr PyObj := do
  let rsv ← pyGet data "results"
  let rs ← pyList rsv
  let r0 ← pyFirst rs
  let result ← pyDictV r0
  let c ← pyGet result "c"
  let h ← pyGet result "h"
  let l ← pyGet result "l"
  let n := match result.lookup "n" with
    | some v => v
    | none => .q (-1)
  let o ← pyGet result "o"
  let tv ← pyGet result "t"
  let t ← pyNum tv
  let v ← pyGet result "v"
  let vw := match result.lookup "vw" with
    | some w => w
    | none => .q (-1)
  mkPy structs.PreviousClose_fields
    [("close", c), ("high", h), ("low", l), ("transactions", n),
     ("open", o), ("time", .dt (utcfromtimestamp (t / 1000))), ("volume", v), ("vw_price", vw)]

end gql_forex

/-! ## `graphql_wrapper.stocks` (class `Stocks`, with its module-local
record classes whose field lists equal the `structs` ones) -/

namespace gql_stocks

/-- The declared fields of the module-local `stocks.AggregatesBar`. -/
def AggregatesBar_fields : List String :=
  ["close", "high", "low", "transactions", "open", "time", "volume", "vw_price"]

/-- The declared fields of the module-local `stocks.GroupedDailyBar`. -/
def GroupedDailyBar_fields : List String :=
  ["ticker", "close", "high", "low", "transactions", "open", "time", "volume", "vw_price"]

/-- One loop iteration of `Stocks.aggregates`. -/
def aggregates_bar (result : PyDict) : Except PErr PyObj := do
  let c ← pyGet result "c"
  let h ← pyGet result "h"
  let l ← pyGet result "l"
  let n := match result.lookup "n" with
    | some v => v
    | none => .q (-1)
  let o ← pyGet result "o"
  let tv ← pyGet result "t"
  let t ← pyNum tv
  let v ← pyGet result "v"
  let vw := match result.lookup "vw" with
    | some w => w
    | none => .q (-1)
  mkPy AggregatesBar_fields
    [("close", c), ("high", h), ("low", l), ("transactions", n), ("open", o),
     ("time", .dt (utcfromtimestamp (t / 1000))), ("volume", v), ("vw_price", vw)]

/-- One loop iteration of `Stocks.grouped_daily`: the upstream ticker is
passed through unchanged. -/
def grouped_daily_bar (result : PyDict) : Except PErr PyObj := do
  let Tv ← pyGet result "T"
  let c ← pyGet result "c"
  let h ← pyGet result "h"
  let l ← pyGet result "l"
  let n := match result.lookup "n" with
    | some v => v
    | none => .q (-1)
  let o ← pyGet result "o"
  let tv ← pyGet result "t"
  let t ← pyNum tv
  let v ← pyGet result "v"
  let vw := match result.lookup "vw" with
    | some w => w
    | none => .q (-1)
  mkPy GroupedDailyBar_fields
    [("ticker", Tv), ("close", c), ("high", h), ("low", l), ("transactions", n),
     ("open", o), ("time", .dt (utcfromtimestamp (t / 1000))), ("volume", v), ("vw_price", vw)]

end gql_stocks

/-! ## `graphql_wrapper.options` (class `Options`) — the previous-close
record construction -/

namespace gql_options

/-- The record construction of `Options.previous_close` on a successful
decoded payload: no `ticker` keyword is passed. -/
def previous_close_result (data : PyDict) : Except PErr PyObj := do
  let rsv ← pyGet data "results"
  let rs ← pyList rsv
  let r0 ← pyFirst rs
  let result ← pyDictV r0
  let c ← pyGet result "c"
  let h ← pyGet result "h"
  let l ← pyGet result "l"
  let n := match result.lookup "n" with
    | some v => v
    | none => .q (-1)
  let o ← pyGet result "o"
  let tv ← pyGet result "t"
  let t ← pyNum tv
  let v ← pyGet result "v"
  let vw := match result.lookup "vw" with
    | some w => w
    | none => .q (-1)
  mkPy structs.PreviousClose_fields
    [("close", c), ("high", h), ("low", l), ("transactions", n),
     ("open", o), ("time", .dt (utcfromtimestamp (t / 1000))), ("volume", v), ("vw_price", vw)]

/-- `Options.previous_close`. -/
def previous_close (fetch : String → FetchOutcome) (ticker expiration : String)
    (call : Bool) (strike : ℚ) (adjusted : Bool) : Except PErr PyObj × List String :=
  let r := polygon_options.get_previous_close fetch ticker expiration call strike adjusted
  (r.1.bind previous_close_result, r.2)

end gql_options

/-! ## Claims -/

/-- C1: the spec claims that every currency-pair operation builds the
identifier `X:{currency_to}{currency_from}` from its validated parameters.
The `polygon_client` functions do (second conjunct: the client called with
`currency_to = "USD"`, `currency_from = "BTC"` fetches `X:USDBTC`), but the
`Crypto.aggregates` facade passes `currency_from` as the client's first
positional argument, so the operation invoked with `currency_to = "USD"`,
`currency_from = "BTC"` fetches the identifier `X:BTCUSD` (first conjunct),
which differs from the claimed `X:USDBTC` (third conjunct). -/
theorem crypto_aggregates_currency_pair_swapped :
    (gql_crypto.aggregates (fun _ => .connectionFailure) "USD" "BTC" .DAY
        "2024-01-01" "2024-01-05" 1 true .ASCENDING 5000).2
      = ["https://api.polygon.io/v2/aggs/ticker/X:BTCUSD/range/1/day/2024-01-01/2024-01-05?adjusted=True&sort=asc&limit=5000&apiKey=" ++ KEY]
    ∧ (polygon_crypto.get_aggregates (fun _ => .connectionFailure) "USD" "BTC" 1 "day"
        "2024-01-01" "2024-01-05" true true 5000).2
      = ["https://api.polygon.io/v2/aggs/ticker/X:USDBTC/range/1/day/2024-01-01/2024-01-05?adjusted=True&sort=asc&limit=5000&apiKey=" ++ KEY]
    ∧ ("X:BTCUSD" : String) ≠ "X:USDBTC" := by
  refine ⟨by decide, by decide, by decide⟩

/-- A successful upstream previous-close payload: status `"OK"`, one result
carrying the upstream ticker `"T"` and the required numeric fields. -/
def previous_close_ok_payload : PyDict :=
  [("status", .s "OK"), ("resultsCount", .q 1),
   ("results", .list [.dict
     [("T", .s "X:BTCUSD"), ("c", .q 2), ("h", .q 3), ("l", .q 1),
      ("o", .q 2), ("t", .q 1700000000000), ("v", .q 10)]])]

/-- The `structs.PreviousClose` record the forex and options previous-close
operations build from `previous_close_ok_payload` (no `ticker` field). -/
def previous_close_ok_obj : PyObj :=
  [("close", .q 2), ("high", .q 3), ("low", .q 1), ("transactions", .q (-1)),
   ("open", .q 2), ("time", .dt (utcfromtimestamp ((1700000000000 : ℚ) / 1000))),
   ("volume", .q 10), ("vw_price", .q (-1))]

/-- C2: the spec claims `Crypto.previous_close` returns a `PreviousClose`
record that includes a `ticker` field, while the forex and options variants
return one without it.  `structs.PreviousClose` declares no `ticker` field
(last conjunct), so the keyword `ticker=result["T"]` that
`Crypto.previous_close` passes is rejected by the record constructor with a
`TypeError` on every successful payload (first conjunct): the crypto variant
can never return a record at all, while the forex and options variants do
return the ticker-less record (middle conjuncts). -/
theorem crypto_previous_close_ticker_keyword_rejected :
    gql_crypto.previous_close_result previous_close_ok_payload
      = .error (.typeError "unexpected keyword argument ticker")
    ∧ gql_forex.previous_close_result previous_close_ok_payload = .ok previous_close_ok_obj
    ∧ gql_options.previous_close_result previous_close_ok_payload = .ok previous_close_ok_obj
    ∧ List.lookup "ticker" previous_close_ok_obj = none
    ∧ structs.PreviousClose_fields.contains "ticker" = false := by
  refine ⟨rfl, rfl, rfl, rfl, by decide⟩

/-- C3 counterexample: a stub upstream answering every grouped-daily fetch
with `{"status": "OK", "resultsCount": 0, "results": []}` does NOT surface a
not-found error: `Crypto.grouped_daily` returns the empty list as a success,
because `get_grouped_daily` has no result-count check. -/
theorem grouped_daily_zero_results_empty_success :
    gql_crypto.grouped_daily
        (fun _ => .json [("status", .s "OK"), ("resultsCount", .q 0), ("results", .list [])])
        "2024-01-02" true
      = (.ok ([] : List PyObj),
         [polygon_crypto.grouped_daily_endpoint "2024-01-02" true]) := by
  rfl

/-- C3 (amended): on a decoded payload whose status is `"OK"` and whose
`resultsCount` is `0`, the aggregates and previous-close operations of both
staged client modules fail with a not-found `ValueError`, but the crypto
grouped-daily operation performs no result-count check and returns the
payload as a success (from which the facade builds an empty record list, see
`grouped_daily_zero_results_empty_success`). -/
theorem zero_result_count_not_found_policy (endpoint ticker from_ to_ date : String)
    (limit : Int) (timespan : String) (data : PyDict)
    (hst : data.lookup "status" = some (.s "OK"))
    (hrc : data.lookup "resultsCount" = some (.q 0)) :
    (∃ m, polygon_crypto.aggregates_classify endpoint ticker from_ to_ limit timespan data
        = .error (.valueError m) ∧ strTake m 14 = "Data not found")
    ∧ (∃ m, polygon_crypto.previous_close_classify endpoint ticker data
        = .error (.valueError m) ∧ strTake m 14 = "Data not found")
    ∧ (∃ m, polygon_options.aggregates_classify endpoint ticker from_ to_ limit timespan data
        = .error (.valueError m) ∧ strTake m 14 = "Data not found")
    ∧ (∃ m, polygon_options.previous_close_classify endpoint ticker data
        = .error (.valueError m) ∧ strTake m 14 = "Data not found")
    ∧ polygon_crypto.grouped_daily_classify endpoint date data = .ok data := by
  refine ⟨?_, ?_, ?_, ?_, ?_⟩ <;>
    simp only [polygon_crypto.aggregates_classify, polygon_crypto.aggregates_status_fall,
      polygon_crypto.previous_close_classify, polygon_crypto.previous_close_status_fall,
      polygon_options.aggregates_classify, polygon_options.aggregates_status_fall,
      polygon_options.previous_close_classify, polygon_options.previous_close_status_fall,
      polygon_crypto.grouped_daily_classify, polygon_crypto.grouped_daily_status_fall,
      PyVal.isStr, PyVal.isNum, hst, hrc] <;>
    simp <;> rfl

/-- Witness for `zero_result_count_not_found_policy` at the concrete payload
`{"status": "OK", "resultsCount": 0}`. -/
theorem zero_result_count_not_found_policy_witness :
    (∃ m, polygon_crypto.aggregates_classify "e" "X:BTCUSD" "2024-01-01" "2024-01-05" 5000 "day"
        [("status", .s "OK"), ("resultsCount", .q 0)]
        = .error (.valueError m) ∧ strTake m 14 = "Data not found")
    ∧ (∃ m, polygon_crypto.previous_close_classify "e" "X:BTCUSD"
        [("status", .s "OK"), ("resultsCount", .q 0)]
        = .error (.valueError m) ∧ strTake m 14 = "Data not found")
    ∧ (∃ m, polygon_options.aggregates_classify "e" "X:BTCUSD" "2024-01-01" "2024-01-05" 5000 "day"
        [("status", .s "OK"), ("resultsCount", .q 0)]
        = .error (.valueError m) ∧ strTake m 14 = "Data not found")
    ∧ (∃ m, polygon_options.previous_close_classify "e" "X:BTCUSD"
        [("status", .s "OK"), ("resultsCount", .q 0)]
        = .error (.valueError m) ∧ strTake m 14 = "Data not found")
    ∧ polygon_crypto.grouped_daily_classify "e" "2024-01-02"
        [("status", .s "OK"), ("resultsCount", .q 0)]
        = .ok [("status", .s "OK"), ("resultsCount", .q 0)] :=
  zero_result_count_not_found_policy "e" "X:BTCUSD" "2024-01-01" "2024-01-05" "2024-01-02"
    5000 "day" [("status", .s "OK"), ("resultsCount", .q 0)] rfl rfl

/-- C4: for every validated option input, each of the three option
operations builds the identifier
`O:{underlying}{expiration stripped of its first two characters and its
dashes}{C|P}{int(strike * 1000) zero-filled to 8 digits}`; in particular
underlying `"AAPL"`, expiration `"2024-06-21"`, strike `150.5`
(the rational `mkRat 301 2`), call, yields `"O:AAPL240621C00150500"`. -/
theorem option_identifier_construction (underlying expiration : String) (call : Bool)
    (strike : ℚ) (hne : expiration ≠ "") (hslash : strContains expiration '/' = false)
    (hdash : strContains expiration '-' = true) (hcentury : strTake expiration 2 = "20")
    (h0 : 0 ≤ strike) (hmax : strike ≤ mkRat 99999999 1000) :
    (polygon_options.aggregates_morph underlying expiration call strike
        = "O:" ++ underlying ++ removeAll (strDrop expiration 2) '-'
          ++ (if call then "C" else "P") ++ zfill 8 (toString (pyInt (strike * 1000)))
      ∧ polygon_options.daily_open_close_morph underlying expiration call strike
        = polygon_options.aggregates_morph underlying expiration call strike
      ∧ polygon_options.previous_close_morph underlying expiration call strike
        = polygon_options.aggregates_morph underlying expiration call strike)
    ∧ polygon_options.aggregates_morph "AAPL" "2024-06-21" true (mkRat 301 2)
        = "O:AAPL240621C00150500" := by
  constructor
  · refine ⟨?_, rfl, rfl⟩
    unfold polygon_options.aggregates_morph
    cases call <;> simp
  · have h : (mkRat 301 2 : ℚ) * 1000 = (150500 : ℚ) := by
      rw [Rat.mkRat_eq_div]; norm_num
    unfold polygon_options.aggregates_morph
    rw [h]
    decide

/-- Witness for `option_identifier_construction` at the concrete input of
the claim (strike `150.5 = mkRat 301 2`). -/
theorem option_identifier_construction_witness :
    (polygon_options.aggregates_morph "AAPL" "2024-06-21" true (mkRat 301 2)
        = "O:" ++ "AAPL" ++ removeAll (strDrop "2024-06-21" 2) '-'
          ++ (if true then "C" else "P") ++ zfill 8 (toString (pyInt (mkRat 301 2 * 1000)))
      ∧ polygon_options.daily_open_close_morph "AAPL" "2024-06-21" true (mkRat 301 2)
        = polygon_options.aggregates_morph "AAPL" "2024-06-21" true (mkRat 301 2)
      ∧ polygon_options.previous_close_morph "AAPL" "2024-06-21" true (mkRat 301 2)
        = polygon_options.aggregates_morph "AAPL" "2024-06-21" true (mkRat 301 2))
    ∧ polygon_options.aggregates_morph "AAPL" "2024-06-21" true (mkRat 301 2)
        = "O:AAPL240621C00150500" :=
  option_identifier_construction "AAPL" "2024-06-21" true (mkRat 301 2)
    (by decide) (by decide) (by decide) (by decide) (by decide) (by decide)

/-- The checks of `crypto.get_aggregates` that precede its two `limit`
checks, all passing (in source order). -/
def polygon_crypto.aggregates_pre_limit_ok (currency_to currency_from : String)
    (multiplier : Int) (timespan : String) (from_ to_ : String) : Prop :=
  currency_from ≠ "" ∧ strContains currency_from '/' = false ∧
  currency_to ≠ "" ∧ strContains currency_to '/' = false ∧
  from_ ≠ "" ∧ strContains from_ '/' = false ∧ strContains from_ '-' = true ∧
  to_ ≠ "" ∧ strContains to_ '/' = false ∧ strContains to_ '-' = true ∧
  1 ≤ multiplier ∧ possible_timespans.contains timespan = true

/-- The checks of `options.get_aggregates` that precede its two `limit`
checks, all passing (in source order). -/
def polygon_options.aggregates_pre_limit_ok (ticker expiration : String) (strike : ℚ)
    (multiplier : Int) (timespan : String) (from_ to_ : String) : Prop :=
  ticker ≠ "" ∧ strContains ticker '/' = false ∧
  expiration ≠ "" ∧ strContains expiration '/' = false ∧
  strContains expiration '-' = true ∧ strTake expiration 2 = "20" ∧
  ¬ strike < 0 ∧ ¬ strike > mkRat 99999999 1000 ∧
  from_ ≠ "" ∧ strContains from_ '/' = false ∧ strContains from_ '-' = true ∧
  to_ ≠ "" ∧ strContains to_ '/' = false ∧ strContains to_ '-' = true ∧
  1 ≤ multiplier ∧ possible_timespans.contains timespan = true

/-- If the input validation of `crypto.get_aggregates` accepts, `limit` lies in `[1, 50000]`. -/
theorem crypto_aggregates_validate_none_bounds
    (currency_to currency_from : String) (multiplier : Int)
    (timespan : String) (from_ to_ : String) (limit : Int)
    (hv : polygon_crypto.aggregates_validate currency_to currency_from multiplier
      timespan from_ to_ limit = none) :
    1 ≤ limit ∧ limit ≤ 50000 := by
  unfold polygon_crypto.aggregates_validate at hv
  by_cases h0 : currency_from = ""
  · rw [if_pos h0] at hv; cases hv
  rw [if_neg h0] at hv
  by_cases h1 : strContains currency_from '/' = true
  · rw [if_pos h1] at hv; cases hv
  rw [if_neg h1] at hv
  by_cases h2 : currency_to = ""
  · rw [if_pos h2] at hv; cases hv
  rw [if_neg h2] at hv
  by_cases h3 : strContains currency_to '/' = true
  · rw [if_pos h3] at hv; cases hv
  rw [if_neg h3] at hv
  by_cases h4 : from_ = ""
  · rw [if_pos h4] at hv; cases hv
  rw [if_neg h4] at hv
  by_cases h5 : strContains from_ '/' = true
  · rw [if_pos h5] at hv; cases hv
  rw [if_neg h5] at hv
  by_cases h6 : (!strContains from_ '-') = true
  · rw [if_pos h6] at hv; cases hv
  rw [if_neg h6] at hv
  by_cases h7 : to_ = ""
  · rw [if_pos h7] at hv; cases hv
  rw [if_neg h7] at hv
  by_cases h8 : strContains to_ '/' = true
  · rw [if_pos h8] at hv; cases hv
  rw [if_neg h8] at hv
  by_cases h9 : (!strContains to_ '-') = true
  · rw [if_pos h9] at hv; cases hv
  rw [if_neg h9] at hv
  by_cases h10 : multiplier < 1
  · rw [if_pos h10] at hv; cases hv
  rw [if_neg h10] at hv
  by_cases h11 : (!possible_timespans.contains timespan) = true
  · rw [if_pos h11] at hv; cases hv
  rw [if_neg h11] at hv
  by_cases h12 : limit < 1
  · rw [if_pos h12] at hv; cases hv
  rw [if_neg h12] at hv
  by_cases h13 : limit > 50000
  · rw [if_pos h13] at hv; cases hv
  rw [if_neg h13] at hv
  constructor <;> omega

/-- If the input validation of `options.get_aggregates` accepts, `limit` lies in `[1, 50000]`. -/
theorem options_aggregates_validate_none_bounds
    (ticker expiration : String) (strike : ℚ) (multiplier : Int)
    (timespan : String) (from_ to_ : String) (limit : Int)
    (hv : polygon_options.aggregates_validate ticker expiration strike multiplier
      timespan from_ to_ limit = none) :
    1 ≤ limit ∧ limit ≤ 50000 := by
  unfold polygon_options.aggregates_validate at hv
  by_cases h0 : ticker = ""
  · rw [if_pos h0] at hv; cases hv
  rw [if_neg h0] at hv
  by_cases h1 : strContains ticker '/' = true
  · rw [if_pos h1] at hv; cases hv
  rw [if_neg h1] at hv
  by_cases h2 : expiration = ""
  · rw [if_pos h2] at hv; cases hv
  rw [if_neg h2] at hv
  by_cases h3 : strContains expiration '/' = true
  · rw [if_pos h3] at hv; cases hv
  rw [if_neg h3] at hv
  by_cases h4 : (!strContains expiration '-') = true
  · rw [if_pos h4] at hv; cases hv
  rw [if_neg h4] at hv
  by_cases h5 : strTake expiration 2 ≠ "20"
  · rw [if_pos h5] at hv; cases hv
  rw [if_neg h5] at hv
  by_cases h6 : strike < 0
  · rw [if_pos h6] at hv; cases hv
  rw [if_neg h6] at hv
  by_cases h7 : strike > mkRat 99999999 1000
  · rw [if_pos h7] at hv; cases hv
  rw [if_neg h7] at hv
  by_cases h8 : from_ = ""
  · rw [if_pos h8] at hv; cases hv
  rw [if_neg h8] at hv
  by_cases h9 : strContains from_ '/' = true
  · rw [if_pos h9] at hv; cases hv
  rw [if_neg h9] at hv
  by_cases h10 : (!strContains from_ '-') = true
  · rw [if_pos h10] at hv; cases hv
  rw [if_neg h10] at hv
  by_cases h11 : to_ = ""
  · rw [if_pos h11] at hv; cases hv
  rw [if_neg h11] at hv
  by_cases h12 : strContains to_ '/' = true
  · rw [if_pos h12] at hv; cases hv
  rw [if_neg h12] at hv
  by_cases h13 : (!strContains to_ '-') = true
  · rw [if_pos h13] at hv; cases hv
  rw [if_neg h13] at hv
  by_cases h14 : multiplier < 1
  · rw [if_pos h14] at hv; cases hv
  rw [if_neg h14] at hv
  by_cases h15 : (!possible_timespans.contains timespan) = true
  · rw [if_pos h15] at hv; cases hv
  rw [if_neg h15] at hv
  by_cases h16 : limit < 1
  · rw [if_pos h16] at hv; cases hv
  rw [if_neg h16] at hv
  by_cases h17 : limit > 50000
  · rw [if_pos h17] at hv; cases hv
  rw [if_neg h17] at hv
  constructor <;> omega

/-- Every rejection of the input validation of `crypto.get_aggregates` is a `ValueError`. -/
theorem crypto_aggregates_validate_some_value_error
    (currency_to currency_from : String) (multiplier : Int)
    (timespan : String) (from_ to_ : String) (limit : Int) (e : PErr)
    (hv : polygon_crypto.aggregates_validate currency_to currency_from multiplier
      timespan from_ to_ limit = some e) :
    ∃ m, e = .valueError m := by
  unfold polygon_crypto.aggregates_validate at hv
  by_cases h0 : currency_from = ""
  · rw [if_pos h0] at hv; exact ⟨_, (Option.some.inj hv).symm⟩
  rw [if_neg h0] at hv
  by_cases h1 : strContains currency_from '/' = true
  · rw [if_pos h1] at hv; exact ⟨_, (Option.some.inj hv).symm⟩
  rw [if_neg h1] at hv
  by_cases h2 : currency_to = ""
  · rw [if_pos h2] at hv; exact ⟨_, (Option.some.inj hv).symm⟩
  rw [if_neg h2] at hv
  by_cases h3 : strContains currency_to '/' = true
  · rw [if_pos h3] at hv; exact ⟨_, (Option.some.inj hv).symm⟩
  rw [if_neg h3] at hv
  by_cases h4 : from_ = ""
  · rw [if_pos h4] at hv; exact ⟨_, (Option.some.inj hv).symm⟩
  rw [if_neg h4] at hv
  by_cases h5 : strContains from_ '/' = true
  · rw [if_pos h5] at hv; exact ⟨_, (Option.some.inj hv).symm⟩
  rw [if_neg h5] at hv
  by_cases h6 : (!strContains from_ '-') = true
  · rw [if_pos h6] at hv; exact ⟨_, (Option.some.inj hv).symm⟩
  rw [if_neg h6] at hv
  by_cases h7 : to_ = ""
  · rw [if_pos h7] at hv; exact ⟨_, (Option.some.inj hv).symm⟩
  rw [if_neg h7] at hv
  by_cases h8 : strContains to_ '/' = true
  · rw [if_pos h8] at hv; exact ⟨_, (Option.some.inj hv).symm⟩
  rw [if_neg h8] at hv
  by_cases h9 : (!strContains to_ '-') = true
  · rw [if_pos h9] at hv; exact ⟨_, (Option.some.inj hv).symm⟩
  rw [if_neg h9] at hv
  by_cases h10 : multiplier < 1
  · rw [if_pos h10] at hv; exact ⟨_, (Option.some.inj hv).symm⟩
  rw [if_neg h10] at hv
  by_cases h11 : (!possible_timespans.contains timespan) = true
  · rw [if_pos h11] at hv; exact ⟨_, (Option.some.inj hv).symm⟩
  rw [if_neg h11] at hv
  by_cases h12 : limit < 1
  · rw [if_pos h12] at hv; exact ⟨_, (Option.some.inj hv).symm⟩
  rw [if_neg h12] at hv
  by_cases h13 : limit > 50000
  · rw [if_pos h13] at hv; exact ⟨_, (Option.some.inj hv).symm⟩
  rw [if_neg h13] at hv
  cases hv

/-- Every rejection of the input validation of `options.get_aggregates` is a `ValueError`. -/
theorem options_aggregates_validate_some_value_error
    (ticker expiration : String) (strike : ℚ) (multiplier : Int)
    (timespan : String) (from_ to_ : String) (limit : Int) (e : PErr)
    (hv : polygon_options.aggregates_validate ticker expiration strike multiplier
      timespan from_ to_ limit = some e) :
    ∃ m, e = .valueError m := by
  unfold polygon_options.aggregates_validate at hv
  by_cases h0 : ticker = ""
  · rw [if_pos h0] at hv; exact ⟨_, (Option.some.inj hv).symm⟩
  rw [if_neg h0] at hv
  by_cases h1 : strContains ticker '/' = true
  · rw [if_pos h1] at hv; exact ⟨_, (Option.some.inj hv).symm⟩
  rw [if_neg h1] at hv
  by_cases h2 : expiration = ""
  · rw [if_pos h2] at hv; exact ⟨_, (Option.some.inj hv).symm⟩
  rw [if_neg h2] at hv
  by_cases h3 : strContains expiration '/' = true
  · rw [if_pos h3] at hv; exact ⟨_, (Option.some.inj hv).symm⟩
  rw [if_neg h3] at hv
  by_cases h4 : (!strContains expiration '-') = true
  · rw [if_pos h4] at hv; exact ⟨_, (Option.some.inj hv).symm⟩
  rw [if_neg h4] at hv
  by_cases h5 : strTake expiration 2 ≠ "20"
  · rw [if_pos h5] at hv; exact ⟨_, (Option.some.inj hv).symm⟩
  rw [if_neg h5] at hv
  by_cases h6 : strike < 0
  · rw [if_pos h6] at hv; exact ⟨_, (Option.some.inj hv).symm⟩
  rw [if_neg h6] at hv
  by_cases h7 : strike > mkRat 99999999 1000
  · rw [if_pos h7] at hv; exact ⟨_, (Option.some.inj hv).symm⟩
  rw [if_neg h7] at hv
  by_cases h8 : from_ = ""
  · rw [if_pos h8] at hv; exact ⟨_, (Option.some.inj hv).symm⟩
  rw [if_neg h8] at hv
  by_cases h9 : strContains from_ '/' = true
  · rw [if_pos h9] at hv; exact ⟨_, (Option.some.inj hv).symm⟩
  rw [if_neg h9] at hv
  by_cases h10 : (!strContains from_ '-') = true
  · rw [if_pos h10] at hv; exact ⟨_, (Option.some.inj hv).symm⟩
  rw [if_neg h10] at hv
  by_cases h11 : to_ = ""
  · rw [if_pos h11] at hv; exact ⟨_, (Option.some.inj hv).symm⟩
  rw [if_neg h11] at hv
  by_cases h12 : strContains to_ '/' = true
  · rw [if_pos h12] at hv; exact ⟨_, (Option.some.inj hv).symm⟩
  rw [if_neg h12] at hv
  by_cases h13 : (!strContains to_ '-') = true
  · rw [if_pos h13] at hv; exact ⟨_, (Option.some.inj hv).symm⟩
  rw [if_neg h13] at hv
  by_cases h14 : multiplier < 1
  · rw [if_pos h14] at hv; exact ⟨_, (Option.some.inj hv).symm⟩
  rw [if_neg h14] at hv
  by_cases h15 : (!possible_timespans.contains timespan) = true
  · rw [if_pos h15] at hv; exact ⟨_, (Option.some.inj hv).symm⟩
  rw [if_neg h15] at hv
  by_cases h16 : limit < 1
  · rw [if_pos h16] at hv; exact ⟨_, (Option.some.inj hv).symm⟩
  rw [if_neg h16] at hv
  by_cases h17 : limit > 50000
  · rw [if_pos h17] at hv; exact ⟨_, (Option.some.inj hv).symm⟩
  rw [if_neg h17] at hv
  cases hv

/-- Under `aggregates_pre_limit_ok`, the validation of `crypto.get_aggregates`
reduces to its two `limit` checks. -/
theorem crypto_aggregates_validate_of_pre_limit_ok
    (currency_to currency_from : String) (multiplier : Int)
    (timespan : String) (from_ to_ : String) (limit : Int)
    (pre : polygon_crypto.aggregates_pre_limit_ok currency_to currency_from multiplier timespan from_ to_) :
    polygon_crypto.aggregates_validate currency_to currency_from multiplier timespan from_ to_ limit
      = if limit < 1 then some (.valueError "'limit' should be at least 1.")
        else if limit > 50000 then some (.valueError "'limit' should be no more than 50000.")
        else none := by
  obtain ⟨h1, h2, h3, h4, h5, h6, h7, h8, h9, h10, h11, h12⟩ := pre
  unfold polygon_crypto.aggregates_validate
  rw [if_neg h1, if_neg (by simp [h2]), if_neg h3, if_neg (by simp [h4]),
    if_neg h5, if_neg (by simp [h6]), if_neg (by simp [h7]),
    if_neg h8, if_neg (by simp [h9]), if_neg (by simp [h10]),
    if_neg (by omega), if_neg (by rw [h12]; simp)]

/-- Under `aggregates_pre_limit_ok`, the validation of `options.get_aggregates`
reduces to its two `limit` checks. -/
theorem options_aggregates_validate_of_pre_limit_ok
    (ticker expiration : String) (strike : ℚ) (multiplier : Int)
    (timespan : String) (from_ to_ : String) (limit : Int)
    (pre : polygon_options.aggregates_pre_limit_ok ticker expiration strike multiplier timespan from_ to_) :
    polygon_options.aggregates_validate ticker expiration strike multiplier timespan from_ to_ limit
      = if limit < 1 then some (.valueError "'limit' should be at least 1.")
        else if limit > 50000 then some (.valueError "'limit' should be no more than 50000.")
        else none := by
  obtain ⟨h1, h2, h3, h4, h5, h6, h7, h8, h9, h10, h11, h12, h13, h14, h15, h16⟩ := pre
  unfold polygon_options.aggregates_validate
  rw [if_neg h1, if_neg (by simp [h2]), if_neg h3, if_neg (by simp [h4]),
    if_neg (by simp [h5]), if_neg (by simp [h6]), if_neg h7, if_neg h8,
    if_neg h9, if_neg (by simp [h10]), if_neg (by simp [h11]),
    if_neg h12, if_neg (by simp [h13]), if_neg (by simp [h14]),
    if_neg (by omega), if_neg (by rw [h16]; simp)]

/-- C5: an aggregates call whose `limit` lies outside `[1, 50000]` fails
input validation with a `ValueError` before any fetch (the list of fetched
URLs is empty), in both the crypto and the options client; and when every
check that precedes the `limit` checks passes, the reported message names
the `limit` field (it starts with `'limit'`). -/
theorem limit_range_rejected_before_network
    (fetch : String → FetchOutcome) (currency_to currency_from : String)
    (oticker oexp : String) (ocall : Bool) (ostrike : ℚ)
    (multiplier : Int) (timespan : String) (from_ to_ : String)
    (adjusted ascending : Bool) (limit : Int)
    (h : limit < 1 ∨ limit > 50000) :
    ((polygon_crypto.get_aggregates fetch currency_to currency_from multiplier timespan
        from_ to_ adjusted ascending limit).2 = []
      ∧ (∃ m, (polygon_crypto.get_aggregates fetch currency_to currency_from multiplier
          timespan from_ to_ adjusted ascending limit).1 = .error (.valueError m)))
    ∧ (polygon_crypto.aggregates_pre_limit_ok currency_to currency_from multiplier timespan from_ to_ →
        ∃ m, (polygon_crypto.get_aggregates fetch currency_to currency_from multiplier
          timespan from_ to_ adjusted ascending limit).1 = .error (.valueError m)
          ∧ strTake m 7 = "'limit'")
    ∧ ((polygon_options.get_aggregates fetch oticker oexp ocall ostrike multiplier timespan
        from_ to_ adjusted ascending limit).2 = []
      ∧ (∃ m, (polygon_options.get_aggregates fetch oticker oexp ocall ostrike multiplier
          timespan from_ to_ adjusted ascending limit).1 = .error (.valueError m)))
    ∧ (polygon_options.aggregates_pre_limit_ok oticker oexp ostrike multiplier timespan from_ to_ →
        ∃ m, (polygon_options.get_aggregates fetch oticker oexp ocall ostrike multiplier
          timespan from_ to_ adjusted ascending limit).1 = .error (.valueError m)
          ∧ strTake m 7 = "'limit'") := by
  refine ⟨?_, ?_, ?_, ?_⟩
  · rcases hv : polygon_crypto.aggregates_validate currency_to currency_from multiplier
      timespan from_ to_ limit with _ | e
    · have := crypto_aggregates_validate_none_bounds _ _ _ _ _ _ _ hv
      omega
    · obtain ⟨m, rfl⟩ := crypto_aggregates_validate_some_value_error _ _ _ _ _ _ _ _ hv
      exact ⟨by unfold polygon_crypto.get_aggregates; rw [hv],
        ⟨m, by unfold polygon_crypto.get_aggregates; rw [hv]⟩⟩
  · intro pre
    have hv := crypto_aggregates_validate_of_pre_limit_ok currency_to currency_from
      multiplier timespan from_ to_ limit pre
    rcases h with hl | hl
    · rw [if_pos hl] at hv
      exact ⟨"'limit' should be at least 1.",
        by unfold polygon_crypto.get_aggregates; rw [hv], rfl⟩
    · rw [if_neg (by omega), if_pos hl] at hv
      exact ⟨"'limit' should be no more than 50000.",
        by unfold polygon_crypto.get_aggregates; rw [hv], rfl⟩
  · rcases hv : polygon_options.aggregates_validate oticker oexp ostrike multiplier
      timespan from_ to_ limit with _ | e
    · have := options_aggregates_validate_none_bounds _ _ _ _ _ _ _ _ hv
      omega
    · obtain ⟨m, rfl⟩ := options_aggregates_validate_some_value_error _ _ _ _ _ _ _ _ _ hv
      exact ⟨by unfold polygon_options.get_aggregates; rw [hv],
        ⟨m, by unfold polygon_options.get_aggregates; rw [hv]⟩⟩
  · intro pre
    have hv := options_aggregates_validate_of_pre_limit_ok oticker oexp ostrike
      multiplier timespan from_ to_ limit pre
    rcases h with hl | hl
    · rw [if_pos hl] at hv
      exact ⟨"'limit' should be at least 1.",
        by unfold polygon_options.get_aggregates; rw [hv], rfl⟩
    · rw [if_neg (by omega), if_pos hl] at hv
      exact ⟨"'limit' should be no more than 50000.",
        by unfold polygon_options.get_aggregates; rw [hv], rfl⟩

/-- Witness for `limit_range_rejected_before_network` at `limit = 0` with
otherwise valid parameters. -/
theorem limit_range_rejected_before_network_witness :
    ((polygon_crypto.get_aggregates (fun _ => .connectionFailure) "USD" "BTC" 1 "day"
        "2024-01-01" "2024-01-05" true true 0).2 = []
      ∧ (∃ m, (polygon_crypto.get_aggregates (fun _ => .connectionFailure) "USD" "BTC" 1 "day"
          "2024-01-01" "2024-01-05" true true 0).1 = .error (.valueError m)))
    ∧ (polygon_crypto.aggregates_pre_limit_ok "USD" "BTC" 1 "day" "2024-01-01" "2024-01-05" →
        ∃ m, (polygon_crypto.get_aggregates (fun _ => .connectionFailure) "USD" "BTC" 1 "day"
          "2024-01-01" "2024-01-05" true true 0).1 = .error (.valueError m)
          ∧ strTake m 7 = "'limit'")
    ∧ ((polygon_options.get_aggregates (fun _ => .connectionFailure) "AAPL" "2024-06-21" true
        (mkRat 301 2) 1 "day" "2024-01-01" "2024-01-05" true true 0).2 = []
      ∧ (∃ m, (polygon_options.get_aggregates (fun _ => .connectionFailure) "AAPL" "2024-06-21" true
          (mkRat 301 2) 1 "day" "2024-01-01" "2024-01-05" true true 0).1 = .error (.valueError m)))
    ∧ (polygon_options.aggregates_pre_limit_ok "AAPL" "2024-06-21" (mkRat 301 2) 1 "day"
        "2024-01-01" "2024-01-05" →
        ∃ m, (polygon_options.get_aggregates (fun _ => .connectionFailure) "AAPL" "2024-06-21" true
          (mkRat 301 2) 1 "day" "2024-01-01" "2024-01-05" true true 0).1 = .error (.valueError m)
          ∧ strTake m 7 = "'limit'") :=
  limit_range_rejected_before_network (fun _ => .connectionFailure) "USD" "BTC"
    "AAPL" "2024-06-21" true (mkRat 301 2) 1 "day" "2024-01-01" "2024-01-05" true true 0
    (Or.inl (by decide))


/-- The record `Stocks.aggregates` builds from a result object holding the
required fields: optional `n`/`vw` default to the `-1` sentinel. -/
theorem stocks_aggregates_bar_eq (r : PyDict) (c hh ll o v : PyVal) (t : ℚ)
    (hc : r.lookup "c" = some c) (hh2 : r.lookup "h" = some hh)
    (hl : r.lookup "l" = some ll) (ho : r.lookup "o" = some o)
    (ht : r.lookup "t" = some (.q t)) (hv : r.lookup "v" = some v) :
    gql_stocks.aggregates_bar r = .ok
      [("close", c), ("high", hh), ("low", ll),
       ("transactions", (r.lookup "n").getD (.q (-1))), ("open", o),
       ("time", .dt (utcfromtimestamp (t / 1000))), ("volume", v),
       ("vw_price", (r.lookup "vw").getD (.q (-1)))] := by
  cases hn : r.lookup "n" <;> cases hw : r.lookup "vw" <;>
    simp [gql_stocks.aggregates_bar, pyGet, pyNum, mkPy, gql_stocks.AggregatesBar_fields,
      hc, hh2, hl, ho, ht, hv, hn, hw, bind, Except.bind]

/-- The record `Crypto.aggregates` builds from a result object holding the
required fields. -/
theorem crypto_aggregates_bar_eq (r : PyDict) (c hh ll o v : PyVal) (t : ℚ)
    (hc : r.lookup "c" = some c) (hh2 : r.lookup "h" = some hh)
    (hl : r.lookup "l" = some ll) (ho : r.lookup "o" = some o)
    (ht : r.lookup "t" = some (.q t)) (hv : r.lookup "v" = some v) :
    gql_crypto.aggregates_bar r = .ok
      [("close", c), ("high", hh), ("low", ll),
       ("transactions", (r.lookup "n").getD (.q (-1))), ("open", o),
       ("time", .dt (utcfromtimestamp (t / 1000))), ("volume", v),
       ("vw_price", (r.lookup "vw").getD (.q (-1)))] := by
  cases hn : r.lookup "n" <;> cases hw : r.lookup "vw" <;>
    simp [gql_crypto.aggregates_bar, pyGet, pyNum, mkPy, structs.AggregatesBar_fields,
      hc, hh2, hl, ho, ht, hv, hn, hw, bind, Except.bind]

/-- The record `Forex.previous_close` builds from a successful payload whose
first result holds the required fields (no `ticker` keyword is passed). -/
theorem forex_previous_close_result_eq (data : PyDict) (r : PyDict)
    (rest : List PyVal) (c hh ll o v : PyVal) (t : ℚ)
    (hd : data.lookup "results" = some (.list (.dict r :: rest)))
    (hc : r.lookup "c" = some c) (hh2 : r.lookup "h" = some hh)
    (hl : r.lookup "l" = some ll) (ho : r.lookup "o" = some o)
    (ht : r.lookup "t" = some (.q t)) (hv : r.lookup "v" = some v) :
    gql_forex.previous_close_result data = .ok
      [("close", c), ("high", hh), ("low", ll),
       ("transactions", (r.lookup "n").getD (.q (-1))), ("open", o),
       ("time", .dt (utcfromtimestamp (t / 1000))), ("volume", v),
       ("vw_price", (r.lookup "vw").getD (.q (-1)))] := by
  cases hn : r.lookup "n" <;> cases hw : r.lookup "vw" <;>
    simp [gql_forex.previous_close_result, pyGet, pyList, pyFirst, pyDictV, pyNum, mkPy,
      structs.PreviousClose_fields, hd, hc, hh2, hl, ho, ht, hv, hn, hw, bind, Except.bind]

/-- The sentinel `-1` differs from a legitimate `0`. -/
theorem pyval_neg_one_ne_zero : PyVal.q (-1) ≠ PyVal.q 0 := by
  intro hq
  injection hq with h
  exact absurd h (by norm_num)

/-- C6: in the records built by `Stocks.aggregates` and by
`Forex.previous_close`, a missing `n` (transaction count) yields the
sentinel `transactions = -1` (never 0, and the record field is always
populated), a missing `vw` yields `vw_price = -1`, and present values are
copied through unchanged. -/
theorem missing_n_vw_sentinel (r : PyDict) (c hh ll o v : PyVal) (t : ℚ)
    (data : PyDict) (rest : List PyVal)
    (hc : r.lookup "c" = some c) (hh2 : r.lookup "h" = some hh)
    (hl : r.lookup "l" = some ll) (ho : r.lookup "o" = some o)
    (ht : r.lookup "t" = some (.q t)) (hv : r.lookup "v" = some v)
    (hd : data.lookup "results" = some (.list (.dict r :: rest))) :
    (∃ obj, gql_stocks.aggregates_bar r = .ok obj
      ∧ (r.lookup "n" = none →
          obj.lookup "transactions" = some (.q (-1)) ∧ obj.lookup "transactions" ≠ some (.q 0))
      ∧ (∀ x, r.lookup "n" = some x → obj.lookup "transactions" = some x)
      ∧ (r.lookup "vw" = none →
          obj.lookup "vw_price" = some (.q (-1)) ∧ obj.lookup "vw_price" ≠ some (.q 0))
      ∧ (∀ x, r.lookup "vw" = some x → obj.lookup "vw_price" = some x))
    ∧ (∃ obj, gql_forex.previous_close_result data = .ok obj
      ∧ (r.lookup "n" = none →
          obj.lookup "transactions" = some (.q (-1)) ∧ obj.lookup "transactions" ≠ some (.q 0))
      ∧ (∀ x, r.lookup "n" = some x → obj.lookup "transactions" = some x)
      ∧ (r.lookup "vw" = none →
          obj.lookup "vw_price" = some (.q (-1)) ∧ obj.lookup "vw_price" ≠ some (.q 0))
      ∧ (∀ x, r.lookup "vw" = some x → obj.lookup "vw_price" = some x)) := by
  constructor
  · refine ⟨_, stocks_aggregates_bar_eq r c hh ll o v t hc hh2 hl ho ht hv,
      ?_, ?_, ?_, ?_⟩
    · intro hn
      rw [hn]
      exact ⟨rfl, fun hbad => pyval_neg_one_ne_zero (Option.some.inj hbad)⟩
    · intro x hn
      rw [hn]
      rfl
    · intro hw
      rw [hw]
      exact ⟨rfl, fun hbad => pyval_neg_one_ne_zero (Option.some.inj hbad)⟩
    · intro x hw
      rw [hw]
      rfl
  · refine ⟨_, forex_previous_close_result_eq data r rest c hh ll o v t hd hc hh2 hl ho ht hv,
      ?_, ?_, ?_, ?_⟩
    · intro hn
      rw [hn]
      exact ⟨rfl, fun hbad => pyval_neg_one_ne_zero (Option.some.inj hbad)⟩
    · intro x hn
      rw [hn]
      rfl
    · intro hw
      rw [hw]
      exact ⟨rfl, fun hbad => pyval_neg_one_ne_zero (Option.some.inj hbad)⟩
    · intro x hw
      rw [hw]
      rfl

/-- Witness for `missing_n_vw_sentinel` at a result object that omits both
`n` and `vw`. -/
theorem missing_n_vw_sentinel_witness :
    (∃ obj, gql_stocks.aggregates_bar
        [("c", .q 2), ("h", .q 3), ("l", .q 1), ("o", .q 2), ("t", .q 1700000000000), ("v", .q 10)]
        = .ok obj
      ∧ (List.lookup "n" [("c", PyVal.q 2), ("h", .q 3), ("l", .q 1), ("o", .q 2), ("t", .q 1700000000000), ("v", .q 10)] = none →
          obj.lookup "transactions" = some (.q (-1)) ∧ obj.lookup "transactions" ≠ some (.q 0))
      ∧ (∀ x, List.lookup "n" [("c", PyVal.q 2), ("h", .q 3), ("l", .q 1), ("o", .q 2), ("t", .q 1700000000000), ("v", .q 10)] = some x →
          obj.lookup "transactions" = some x)
      ∧ (List.lookup "vw" [("c", PyVal.q 2), ("h", .q 3), ("l", .q 1), ("o", .q 2), ("t", .q 1700000000000), ("v", .q 10)] = none →
          obj.lookup "vw_price" = some (.q (-1)) ∧ obj.lookup "vw_price" ≠ some (.q 0))
      ∧ (∀ x, List.lookup "vw" [("c", PyVal.q 2), ("h", .q 3), ("l", .q 1), ("o", .q 2), ("t", .q 1700000000000), ("v", .q 10)] = some x →
          obj.lookup "vw_price" = some x))
    ∧ (∃ obj, gql_forex.previous_close_result
        [("results", .list [.dict [("c", .q 2), ("h", .q 3), ("l", .q 1), ("o", .q 2), ("t", .q 1700000000000), ("v", .q 10)]])]
        = .ok obj
      ∧ (List.lookup "n" [("c", PyVal.q 2), ("h", .q 3), ("l", .q 1), ("o", .q 2), ("t", .q 1700000000000), ("v", .q 10)] = none →
          obj.lookup "transactions" = some (.q (-1)) ∧ obj.lookup "transactions" ≠ some (.q 0))
      ∧ (∀ x, List.lookup "n" [("c", PyVal.q 2), ("h", .q 3), ("l", .q 1), ("o", .q 2), ("t", .q 1700000000000), ("v", .q 10)] = some x →
          obj.lookup "transactions" = some x)
      ∧ (List.lookup "vw" [("c", PyVal.q 2), ("h", .q 3), ("l", .q 1), ("o", .q 2), ("t", .q 1700000000000), ("v", .q 10)] = none →
          obj.lookup "vw_price" = some (.q (-1)) ∧ obj.lookup "vw_price" ≠ some (.q 0))
      ∧ (∀ x, List.lookup "vw" [("c", PyVal.q 2), ("h", .q 3), ("l", .q 1), ("o", .q 2), ("t", .q 1700000000000), ("v", .q 10)] = some x →
          obj.lookup "vw_price" = some x)) :=
  missing_n_vw_sentinel
    [("c", .q 2), ("h", .q 3), ("l", .q 1), ("o", .q 2), ("t", .q 1700000000000), ("v", .q 10)]
    (.q 2) (.q 3) (.q 1) (.q 2) (.q 10) 1700000000000
    [("results", .list [.dict [("c", .q 2), ("h", .q 3), ("l", .q 1), ("o", .q 2), ("t", .q 1700000000000), ("v", .q 10)]])]
    [] rfl rfl rfl rfl rfl rfl rfl

/-- The record `Crypto.grouped_daily` builds from a result object holding
the required fields: the upstream ticker is stripped of a leading `"X:"`. -/
theorem crypto_grouped_daily_bar_eq (r : PyDict) (T : String) (c hh ll o v : PyVal)
    (t : ℚ) (hT : r.lookup "T" = some (.s T))
    (hc : r.lookup "c" = some c) (hh2 : r.lookup "h" = some hh)
    (hl : r.lookup "l" = some ll) (ho : r.lookup "o" = some o)
    (ht : r.lookup "t" = some (.q t)) (hv : r.lookup "v" = some v) :
    gql_crypto.grouped_daily_bar r = .ok
      [("ticker", .s (if strTake T 2 = "X:" then strDrop T 2 else T)),
       ("close", c), ("high", hh), ("low", ll),
       ("transactions", (r.lookup "n").getD (.q (-1))), ("open", o),
       ("time", .dt (utcfromtimestamp (t / 1000))), ("volume", v),
       ("vw_price", (r.lookup "vw").getD (.q (-1)))] := by
  cases hn : r.lookup "n" <;> cases hw : r.lookup "vw" <;>
    simp [gql_crypto.grouped_daily_bar, pyGet, pyStr, pyNum, mkPy,
      structs.GroupedDailyBar_fields, hT, hc, hh2, hl, ho, ht, hv, hn, hw, bind, Except.bind]

/-- The record `Forex.grouped_daily` builds from a result object holding
the required fields: the upstream ticker is stripped of a leading `"C:"`. -/
theorem forex_grouped_daily_bar_eq (r : PyDict) (T : String) (c hh ll o v : PyVal)
    (t : ℚ) (hT : r.lookup "T" = some (.s T))
    (hc : r.lookup "c" = some c) (hh2 : r.lookup "h" = some hh)
    (hl : r.lookup "l" = some ll) (ho : r.lookup "o" = some o)
    (ht : r.lookup "t" = some (.q t)) (hv : r.lookup "v" = some v) :
    gql_forex.grouped_daily_bar r = .ok
      [("ticker", .s (if strTake T 2 = "C:" then strDrop T 2 else T)),
       ("close", c), ("high", hh), ("low", ll),
       ("transactions", (r.lookup "n").getD (.q (-1))), ("open", o),
       ("time", .dt (utcfromtimestamp (t / 1000))), ("volume", v),
       ("vw_price", (r.lookup "vw").getD (.q (-1)))] := by
  cases hn : r.lookup "n" <;> cases hw : r.lookup "vw" <;>
    simp [gql_forex.grouped_daily_bar, pyGet, pyStr, pyNum, mkPy,
      structs.GroupedDailyBar_fields, hT, hc, hh2, hl, ho, ht, hv, hn, hw, bind, Except.bind]

/-- The record `Stocks.grouped_daily` builds from a result object holding
the required fields: the upstream ticker value is passed through as is. -/
theorem stocks_grouped_daily_bar_eq (r : PyDict) (Tv : PyVal) (c hh ll o v : PyVal)
    (t : ℚ) (hT : r.lookup "T" = some Tv)
    (hc : r.lookup "c" = some c) (hh2 : r.lookup "h" = some hh)
    (hl : r.lookup "l" = some ll) (ho : r.lookup "o" = some o)
    (ht : r.lookup "t" = some (.q t)) (hv : r.lookup "v" = some v) :
    gql_stocks.grouped_daily_bar r = .ok
      [("ticker", Tv), ("close", c), ("high", hh), ("low", ll),
       ("transactions", (r.lookup "n").getD (.q (-1))), ("open", o),
       ("time", .dt (utcfromtimestamp (t / 1000))), ("volume", v),
       ("vw_price", (r.lookup "vw").getD (.q (-1)))] := by
  cases hn : r.lookup "n" <;> cases hw : r.lookup "vw" <;>
    simp [gql_stocks.grouped_daily_bar, pyGet, pyNum, mkPy,
      gql_stocks.GroupedDailyBar_fields, hT, hc, hh2, hl, ho, ht, hv, hn, hw, bind, Except.bind]

/-- C7: in grouped-daily normalization, the crypto facade strips a leading
`"X:"` from the upstream ticker and otherwise passes it through, the forex
facade does the same for `"C:"`, and the stocks facade always passes the
upstream ticker through unchanged. -/
theorem grouped_daily_ticker_stripping (r : PyDict) (T : String) (c hh ll o v : PyVal)
    (t : ℚ) (hT : r.lookup "T" = some (.s T))
    (hc : r.lookup "c" = some c) (hh2 : r.lookup "h" = some hh)
    (hl : r.lookup "l" = some ll) (ho : r.lookup "o" = some o)
    (ht : r.lookup "t" = some (.q t)) (hv : r.lookup "v" = some v) :
    (∃ obj, gql_crypto.grouped_daily_bar r = .ok obj
      ∧ (strTake T 2 = "X:" → obj.lookup "ticker" = some (.s (strDrop T 2)))
      ∧ (strTake T 2 ≠ "X:" → obj.lookup "ticker" = some (.s T)))
    ∧ (∃ obj, gql_forex.grouped_daily_bar r = .ok obj
      ∧ (strTake T 2 = "C:" → obj.lookup "ticker" = some (.s (strDrop T 2)))
      ∧ (strTake T 2 ≠ "C:" → obj.lookup "ticker" = some (.s T)))
    ∧ (∃ obj, gql_stocks.grouped_daily_bar r = .ok obj
      ∧ obj.lookup "ticker" = some (.s T)) := by
  refine ⟨⟨_, crypto_grouped_daily_bar_eq r T c hh ll o v t hT hc hh2 hl ho ht hv, ?_, ?_⟩,
    ⟨_, forex_grouped_daily_bar_eq r T c hh ll o v t hT hc hh2 hl ho ht hv, ?_, ?_⟩,
    ⟨_, stocks_grouped_daily_bar_eq r (.s T) c hh ll o v t hT hc hh2 hl ho ht hv, rfl⟩⟩
  · intro hx
    rw [if_pos hx]
    rfl
  · intro hx
    rw [if_neg hx]
    rfl
  · intro hx
    rw [if_pos hx]
    rfl
  · intro hx
    rw [if_neg hx]
    rfl

/-- Witness for `grouped_daily_ticker_stripping` at the upstream ticker
`"X:BTCUSD"`. -/
theorem grouped_daily_ticker_stripping_witness :
    (∃ obj, gql_crypto.grouped_daily_bar
        [("T", .s "X:BTCUSD"), ("c", .q 2), ("h", .q 3), ("l", .q 1), ("o", .q 2), ("t", .q 1700000000000), ("v", .q 10)]
        = .ok obj
      ∧ (strTake "X:BTCUSD" 2 = "X:" → obj.lookup "ticker" = some (.s (strDrop "X:BTCUSD" 2)))
      ∧ (strTake "X:BTCUSD" 2 ≠ "X:" → obj.lookup "ticker" = some (.s "X:BTCUSD")))
    ∧ (∃ obj, gql_forex.grouped_daily_bar
        [("T", .s "X:BTCUSD"), ("c", .q 2), ("h", .q 3), ("l", .q 1), ("o", .q 2), ("t", .q 1700000000000), ("v", .q 10)]
        = .ok obj
      ∧ (strTake "X:BTCUSD" 2 = "C:" → obj.lookup "ticker" = some (.s (strDrop "X:BTCUSD" 2)))
      ∧ (strTake "X:BTCUSD" 2 ≠ "C:" → obj.lookup "ticker" = some (.s "X:BTCUSD")))
    ∧ (∃ obj, gql_stocks.grouped_daily_bar
        [("T", .s "X:BTCUSD"), ("c", .q 2), ("h", .q 3), ("l", .q 1), ("o", .q 2), ("t", .q 1700000000000), ("v", .q 10)]
        = .ok obj
      ∧ obj.lookup "ticker" = some (.s "X:BTCUSD")) :=
  grouped_daily_ticker_stripping
    [("T", .s "X:BTCUSD"), ("c", .q 2), ("h", .q 3), ("l", .q 1), ("o", .q 2), ("t", .q 1700000000000), ("v", .q 10)]
    "X:BTCUSD" (.q 2) (.q 3) (.q 1) (.q 2) (.q 10) 1700000000000
    rfl rfl rfl rfl rfl rfl rfl

/-- C9: the `time` field of a normalized aggregate bar (stocks and crypto
facades) equals `utcfromtimestamp` of the upstream millisecond epoch integer
divided by 1000; in particular 1700000000000 ms is 2023-11-14T22:13:20Z. -/
theorem timestamp_conversion_division (r : PyDict) (c hh ll o v : PyVal) (t : Int)
    (hc : r.lookup "c" = some c) (hh2 : r.lookup "h" = some hh)
    (hl : r.lookup "l" = some ll) (ho : r.lookup "o" = some o)
    (ht : r.lookup "t" = some (.q (t : ℚ))) (hv : r.lookup "v" = some v) :
    (∃ obj, gql_stocks.aggregates_bar r = .ok obj
      ∧ obj.lookup "time" = some (.dt (utcfromtimestamp ((t : ℚ) / 1000))))
    ∧ (∃ obj, gql_crypto.aggregates_bar r = .ok obj
      ∧ obj.lookup "time" = some (.dt (utcfromtimestamp ((t : ℚ) / 1000))))
    ∧ utcfromtimestamp ((1700000000000 : ℚ) / 1000)
      = ⟨2023, 11, 14, 22, 13, 20, 0⟩ := by
  refine ⟨⟨_, stocks_aggregates_bar_eq r c hh ll o v (t : ℚ) hc hh2 hl ho ht hv, rfl⟩,
    ⟨_, crypto_aggregates_bar_eq r c hh ll o v (t : ℚ) hc hh2 hl ho ht hv, rfl⟩, ?_⟩
  have h : (1700000000000 : ℚ) / 1000 = (1700000000 : ℚ) := by norm_num
  rw [h]
  decide

/-- Witness for `timestamp_conversion_division` at the epoch 1700000000000 ms. -/
theorem timestamp_conversion_division_witness :
    (∃ obj, gql_stocks.aggregates_bar
        [("c", .q 2), ("h", .q 3), ("l", .q 1), ("o", .q 2), ("t", .q ((1700000000000 : Int) : ℚ)), ("v", .q 10)]
        = .ok obj
      ∧ obj.lookup "time" = some (.dt (utcfromtimestamp (((1700000000000 : Int) : ℚ) / 1000))))
    ∧ (∃ obj, gql_crypto.aggregates_bar
        [("c", .q 2), ("h", .q 3), ("l", .q 1), ("o", .q 2), ("t", .q ((1700000000000 : Int) : ℚ)), ("v", .q 10)]
        = .ok obj
      ∧ obj.lookup "time" = some (.dt (utcfromtimestamp (((1700000000000 : Int) : ℚ) / 1000))))
    ∧ utcfromtimestamp ((1700000000000 : ℚ) / 1000)
      = ⟨2023, 11, 14, 22, 13, 20, 0⟩ :=
  timestamp_conversion_division
    [("c", .q 2), ("h", .q 3), ("l", .q 1), ("o", .q 2), ("t", .q ((1700000000000 : Int) : ℚ)), ("v", .q 10)]
    (.q 2) (.q 3) (.q 1) (.q 2) (.q 10) 1700000000000
    rfl rfl rfl rfl rfl rfl

/-- C8: a previous-close response decoding to exactly
`{"status": "ERROR", "error": "Ticker was incorrectly formatted"}` maps, by
literal comparison, to the `ValueError` naming the ticker field, in both the
crypto and the options client; any other error string under status
`"ERROR"` falls through to the unexpected-status failure carrying the raw
status and error message verbatim. -/
theorem previous_close_error_string_mapping (endpoint ticker m : String)
    (hm : m ≠ "Ticker was incorrectly formatted") :
    polygon_crypto.previous_close_classify endpoint ticker
        [("status", .s "ERROR"), ("error", .s "Ticker was incorrectly formatted")]
      = .error (.valueError "'ticker' was incorrectly formatted.")
    ∧ polygon_options.previous_close_classify endpoint ticker
        [("status", .s "ERROR"), ("error", .s "Ticker was incorrectly formatted")]
      = .error (.valueError "'ticker' was incorrectly formatted.")
    ∧ polygon_crypto.previous_close_classify endpoint ticker
        [("status", .s "ERROR"), ("error", .s m)]
      = .error (.exception ("Something went wrong. Unknown " ++ "ERROR"
          ++ " status received from endpoint (" ++ endpoint
          ++ "). Received error: " ++ m ++ "."))
    ∧ polygon_options.previous_close_classify endpoint ticker
        [("status", .s "ERROR"), ("error", .s m)]
      = .error (.exception ("Something went wrong. Unknown " ++ "ERROR"
          ++ " status received from endpoint (" ++ endpoint
          ++ "). Received error: " ++ m ++ ".")) := by
  refine ⟨rfl, rfl, ?_, ?_⟩ <;>
    · simp [polygon_crypto.previous_close_classify, polygon_crypto.previous_close_status_fall,
        polygon_options.previous_close_classify, polygon_options.previous_close_status_fall,
        PyVal.isStr, pyRepr, List.lookup, hm]
      try rfl

/-- Witness for `previous_close_error_string_mapping` at the unrecognized
upstream error string `"boom"`. -/
theorem previous_close_error_string_mapping_witness :
    polygon_crypto.previous_close_classify "e" "X:BTCUSD"
        [("status", .s "ERROR"), ("error", .s "Ticker was incorrectly formatted")]
      = .error (.valueError "'ticker' was incorrectly formatted.")
    ∧ polygon_options.previous_close_classify "e" "X:BTCUSD"
        [("status", .s "ERROR"), ("error", .s "Ticker was incorrectly formatted")]
      = .error (.valueError "'ticker' was incorrectly formatted.")
    ∧ polygon_crypto.previous_close_classify "e" "X:BTCUSD"
        [("status", .s "ERROR"), ("error", .s "boom")]
      = .error (.exception ("Something went wrong. Unknown " ++ "ERROR"
          ++ " status received from endpoint (" ++ "e"
          ++ "). Received error: " ++ "boom" ++ "."))
    ∧ polygon_options.previous_close_classify "e" "X:BTCUSD"
        [("status", .s "ERROR"), ("error", .s "boom")]
      = .error (.exception ("Something went wrong. Unknown " ++ "ERROR"
          ++ " status received from endpoint (" ++ "e"
          ++ "). Received error: " ++ "boom" ++ ".")) :=
  previous_close_error_string_mapping "e" "X:BTCUSD" "boom" (by decide)

/-- The URL list of any client call is made of endpoints satisfying `P`
whenever the endpoint the call would fetch satisfies `P` (all three fetch
outcomes record the same single URL). -/
theorem forall_fetch_snd (P : String → Prop) (fo : FetchOutcome) (E : String)
    (k : PyDict → Except PErr PyDict) (hP : P E) :
    List.Forall P ((match fo with
      | FetchOutcome.connectionFailure =>
          (Except.error (PErr.requestException ("Error connecting to endpoint (" ++ E ++ ").")), [E])
      | FetchOutcome.badBody =>
          (Except.error (PErr.requestException ("Unexpected non-JSON response from endpoint (" ++ E ++ ").")), [E])
      | FetchOutcome.json data => (k data, [E])).2) := by
  cases fo <;> exact hP

/-- C10: every URL fetched by any of the seven staged client operations
carries the process-wide key `KEY` as its final `apiKey` query parameter
(the URL ends in `"&apiKey=" ++ KEY`), where `KEY` is the module constant;
no operation takes a per-call credential. -/
theorem api_key_final_query_parameter (fetch : String → FetchOutcome)
    (currency_to currency_from date : String) (oticker oexp : String) (ocall : Bool)
    (ostrike : ℚ) (multiplier : Int) (timespan : String) (from_ to_ : String)
    (adjusted ascending : Bool) (limit : Int) :
    List.Forall (fun url => ∃ p, url = p ++ "&apiKey=" ++ KEY)
      (polygon_crypto.get_aggregates fetch currency_to currency_from multiplier timespan
        from_ to_ adjusted ascending limit).2
    ∧ List.Forall (fun url => ∃ p, url = p ++ "&apiKey=" ++ KEY)
      (polygon_crypto.get_daily_open_close fetch currency_to currency_from date adjusted).2
    ∧ List.Forall (fun url => ∃ p, url = p ++ "&apiKey=" ++ KEY)
      (polygon_crypto.get_grouped_daily fetch date adjusted).2
    ∧ List.Forall (fun url => ∃ p, url = p ++ "&apiKey=" ++ KEY)
      (polygon_crypto.get_previous_close fetch currency_to currency_from adjusted).2
    ∧ List.Forall (fun url => ∃ p, url = p ++ "&apiKey=" ++ KEY)
      (polygon_options.get_aggregates fetch oticker oexp ocall ostrike multiplier timespan
        from_ to_ adjusted ascending limit).2
    ∧ List.Forall (fun url => ∃ p, url = p ++ "&apiKey=" ++ KEY)
      (polygon_options.get_daily_open_close fetch oticker oexp ocall ostrike date adjusted).2
    ∧ List.Forall (fun url => ∃ p, url = p ++ "&apiKey=" ++ KEY)
      (polygon_options.get_previous_close fetch oticker oexp ocall ostrike adjusted).2
    ∧ KEY = "6mK2FCpgpyFWpbGn4O2DiGuSMlcTGc48" := by
  refine ⟨?_, ?_, ?_, ?_, ?_, ?_, ?_, rfl⟩
  · rcases hv : polygon_crypto.aggregates_validate currency_to currency_from multiplier
        timespan from_ to_ limit with _ | e <;>
      simp only [polygon_crypto.get_aggregates, hv]
    · exact forall_fetch_snd _ _ _ _ ⟨_, rfl⟩
    · trivial
  · rcases hv : polygon_crypto.daily_open_close_validate currency_to currency_from date
        with _ | e <;>
      simp only [polygon_crypto.get_daily_open_close, hv]
    · exact forall_fetch_snd _ _ _ _ ⟨_, rfl⟩
    · trivial
  · rcases hv : polygon_crypto.grouped_daily_validate date with _ | e <;>
      simp only [polygon_crypto.get_grouped_daily, hv]
    · exact forall_fetch_snd _ _ _ _ ⟨_, rfl⟩
    · trivial
  · rcases hv : polygon_crypto.previous_close_validate currency_to currency_from with _ | e <;>
      simp only [polygon_crypto.get_previous_close, hv]
    · exact forall_fetch_snd _ _ _ _ ⟨_, rfl⟩
    · trivial
  · rcases hv : polygon_options.aggregates_validate oticker oexp ostrike multiplier timespan
        from_ to_ limit with _ | e <;>
      simp only [polygon_options.get_aggregates, hv]
    · exact forall_fetch_snd _ _ _ _ ⟨_, rfl⟩
    · trivial
  · rcases hv : polygon_options.daily_open_close_validate oticker oexp ostrike date
        with _ | e <;>
      simp only [polygon_options.get_daily_open_close, hv]
    · exact forall_fetch_snd _ _ _ _ ⟨_, rfl⟩
    · trivial
  · rcases hv : polygon_options.previous_close_validate oticker oexp ostrike with _ | e <;>
      simp only [polygon_options.get_previous_close, hv]
    · exact forall_fetch_snd _ _ _ _ ⟨_, rfl⟩
    · trivial
